import Mathlib

/-!
Verification of the WMS data-analysis pipeline (`data_processor.py`).

The embedding models:
  * dataframe cells read with `dtype=str` as `Option String` (`none` = `NaN`);
  * Python `float` values as exact rationals together with `inf`/`-inf`/`nan`
    (rounding of the binary format is not modelled);
  * `datetime` values as a day number (days since 1970-01-01 of the date
    part, the standard civil-days encoding) plus a fractional day;
  * a raising lookup (`KeyError`) or a raising constructor as `Option`, and
    the fatal errors of `process_data` as `Except`.
-/

namespace WMS

/-- A dataframe cell as read with `dtype=str`: a string, or a missing value
(`NaN`) modelled as `none`. -/
abbrev Cell := Option String

/-- Python `str(...)` applied to a cell (`str(nan) = "nan"`). -/
def cellStr : Cell → String
  | none => "nan"
  | some s => s

/-- Python truthiness of a cell value: `NaN` is truthy, `""` is falsy. -/
def cellTruthy : Cell → Bool
  | none => true
  | some s => s ≠ ""

/-- Python `str.strip()` (whitespace trimming on both ends). -/
def pyStrip (s : String) : String :=
  ⟨((s.toList.dropWhile Char.isWhitespace).reverse.dropWhile Char.isWhitespace).reverse⟩

/-- A Python float value: finite (kept as an exact rational), `inf`, `-inf`
or `nan`. -/
inductive PyFloat where
  | fin (q : ℚ)
  | inf
  | ninf
  | nan
deriving DecidableEq

/-- IEEE-style addition on the modelled float values. -/
def PyFloat.add : PyFloat → PyFloat → PyFloat
  | .nan, _ => .nan
  | _, .nan => .nan
  | .inf, .ninf => .nan
  | .ninf, .inf => .nan
  | .inf, _ => .inf
  | _, .inf => .inf
  | .ninf, _ => .ninf
  | _, .ninf => .ninf
  | .fin a, .fin b => .fin (a + b)

/-- Python `abs` on a float value. -/
def PyFloat.abs : PyFloat → PyFloat
  | .fin q => .fin |q|
  | .nan => .nan
  | _ => .inf

/-- Python `x > q` for a float `x` against a finite bound (`nan` compares
false). -/
def PyFloat.gtQ : PyFloat → ℚ → Bool
  | .fin a, q => decide (q < a)
  | .inf, _ => true
  | _, _ => false

/-- Consume a run of digits, allowing single underscores between digits
(Python's numeric-literal rule). Returns the value read so far, the number
of digits consumed, and the rest; `none` models a `ValueError` from a
misplaced underscore. -/
def digitsCore (acc cnt : ℕ) : List Char → Option (ℕ × ℕ × List Char)
  | [] => some (acc, cnt, [])
  | c :: rest =>
    if c.isDigit then digitsCore (10 * acc + (c.toNat - 48)) (cnt + 1) rest
    else if c = '_' then
      if cnt = 0 then none
      else
        match rest with
        | d :: rest2 =>
          if d.isDigit then digitsCore (10 * acc + (d.toNat - 48)) (cnt + 1) rest2 else none
        | [] => none
    else some (acc, cnt, c :: rest)

/-- Ten to an integer power, as a rational. -/
def pow10 (z : ℤ) : ℚ :=
  if 0 ≤ z then ((10 : ℚ) ^ z.toNat) else 1 / ((10 : ℚ) ^ (-z).toNat)

/-- Parse the exponent part of a float literal (after the `e`/`E`). -/
def parseExp (mant : ℚ) (l : List Char) : Option ℚ :=
  let sgnRest : ℤ × List Char :=
    match l with
    | '+' :: r => (1, r)
    | '-' :: r => (-1, r)
    | _ => (1, l)
  match sgnRest.2 with
  | c :: _ =>
    if c.isDigit then
      match digitsCore 0 0 sgnRest.2 with
      | some (ev, _, []) => some (mant * pow10 (sgnRest.1 * (ev : ℤ)))
      | _ => none
    else none
  | [] => none

/-- Parse the body of a Python float literal (after the optional sign):
integer digits, optional fractional part, optional exponent. -/
def parseFloatBody (l : List Char) : Option ℚ := do
  let (iv, ic, r1) ← (match l with
    | c :: _ => if c.isDigit then digitsCore 0 0 l else some (0, 0, l)
    | [] => none)
  let (fv, fc, r2) ← (match r1 with
    | '.' :: r =>
      (match r with
       | c :: _ => if c.isDigit then digitsCore 0 0 r else some ((0 : ℕ), (0 : ℕ), r)
       | [] => some (0, 0, ([] : List Char)))
    | _ => some (0, 0, r1))
  if ic + fc = 0 then none
  else
    let mant : ℚ := (iv : ℚ) + (fv : ℚ) / ((10 : ℚ) ^ fc)
    match r2 with
    | [] => some mant
    | 'e' :: r3 => parseExp mant r3
    | 'E' :: r3 => parseExp mant r3
    | _ => none

/-- Lower-case a character list (for the case-insensitive float keywords). -/
def lowerAll (l : List Char) : List Char := l.map Char.toLower

/-- Python `float(str)`: strip whitespace, optional sign, then a float
literal or one of the keywords `inf` / `infinity` / `nan` (case-insensitive).
`none` models a `ValueError`. -/
def pyFloat (s : String) : Option PyFloat :=
  let l := (pyStrip s).toList
  let signRest : Bool × List Char :=
    match l with
    | '+' :: r => (false, r)
    | '-' :: r => (true, r)
    | _ => (false, l)
  let neg := signRest.1
  let l2 := signRest.2
  match lowerAll l2 with
  | ['i', 'n', 'f'] => some (if neg then .ninf else .inf)
  | ['i', 'n', 'f', 'i', 'n', 'i', 't', 'y'] => some (if neg then .ninf else .inf)
  | ['n', 'a', 'n'] => some .nan
  | _ =>
    match parseFloatBody l2 with
    | some q => some (.fin (if neg then -q else q))
    | none => none

/-- Python `int(str)`: strip whitespace, optional sign, digits with single
underscores between digits. `none` models a `ValueError`. -/
def pyInt (s : String) : Option ℤ :=
  let l := (pyStrip s).toList
  let signRest : Bool × List Char :=
    match l with
    | '+' :: r => (false, r)
    | '-' :: r => (true, r)
    | _ => (false, l)
  match signRest.2 with
  | c :: _ =>
    if c.isDigit then
      match digitsCore 0 0 signRest.2 with
      | some (v, _, []) => some (if signRest.1 then -(v : ℤ) else (v : ℤ))
      | _ => none
    else none
  | [] => none

/-- Leap year of the proleptic Gregorian calendar, as in `datetime`. -/
def isLeap (y : ℤ) : Bool := (y % 4 = 0 && y % 100 ≠ 0) || (y % 400 = 0)

/-- Length of a month, as in `datetime`. -/
def daysInMonth (y m : ℤ) : ℤ :=
  if m = 1 then 31
  else if m = 2 then (if isLeap y then 29 else 28)
  else if m = 3 then 31
  else if m = 4 then 30
  else if m = 5 then 31
  else if m = 6 then 30
  else if m = 7 then 31
  else if m = 8 then 31
  else if m = 9 then 30
  else if m = 10 then 31
  else if m = 11 then 30
  else if m = 12 then 31
  else 0

/-- The triple is accepted by Python's `datetime(year, month, day)`
constructor (`MINYEAR = 1`, `MAXYEAR = 9999`); a rejected triple raises
`ValueError`. -/
def validYMD (y m d : ℤ) : Bool :=
  1 ≤ y && y ≤ 9999 && 1 ≤ m && m ≤ 12 && 1 ≤ d && d ≤ daysInMonth y m

/-- Day number of a calendar date: days since 1970-01-01 in the proleptic
Gregorian calendar (the standard `days_from_civil` computation). This is the
linear day count underlying `datetime` subtraction and `timedelta`
addition. -/
def civilToOrd (y m d : ℤ) : ℤ :=
  let y2 := if m ≤ 2 then y - 1 else y
  let era := Int.fdiv y2 400
  let yoe := y2 - era * 400
  let mp := if m ≤ 2 then m + 9 else m - 3
  let doy := Int.fdiv (153 * mp + 2) 5 + d - 1
  let doe := yoe * 365 + Int.fdiv yoe 4 - Int.fdiv yoe 100 + doy
  era * 146097 + doe - 719468

/-- Month and year of a day number (the standard `civil_from_days`
computation); used for the `strftime('%m/%Y')` grouping key. -/
def ordToMonthYear (z0 : ℤ) : ℤ × ℤ :=
  let z := z0 + 719468
  let era := Int.fdiv z 146097
  let doe := z - era * 146097
  let yoe := Int.fdiv (doe - Int.fdiv doe 1460 + Int.fdiv doe 36524 - Int.fdiv doe 146096) 365
  let y := yoe + era * 400
  let doy := doe - (365 * yoe + Int.fdiv yoe 4 - Int.fdiv yoe 100)
  let mp := Int.fdiv (5 * doy + 2) 153
  let m := if mp < 10 then mp + 3 else mp - 9
  (m, if m ≤ 2 then y + 1 else y)

/-- A `datetime` value: `ord` is the day number of its date part and `frac`
the time of day as a fraction of a day (always in `[0, 1)`). -/
structure PyDateTime where
  ord : ℤ
  frac : ℚ
deriving DecidableEq

/-- Python `datetime(y, m, d)` (midnight). -/
def mkDate (y m d : ℤ) : PyDateTime := ⟨civilToOrd y m d, 0⟩

/-- Total days represented by a datetime, time of day included. -/
def PyDateTime.ratDays (dt : PyDateTime) : ℚ := (dt.ord : ℚ) + dt.frac

/-- Split a character list on a separator character (Python `str.split`). -/
def splitOnCharAux (sep : Char) : List Char → List Char → List (List Char)
  | cur, [] => [cur.reverse]
  | cur, c :: rest =>
    if c = sep then cur.reverse :: splitOnCharAux sep [] rest
    else splitOnCharAux sep (c :: cur) rest

/-- Python `s.split(sep)` for a one-character separator. -/
def splitOnChar (sep : Char) (l : List Char) : List (List Char) :=
  splitOnCharAux sep [] l

/-- All characters are ASCII digits. -/
def allDigits (l : List Char) : Bool := l.all Char.isDigit

/-- Numeric value of a digit list. -/
def digitsToNat (l : List Char) : ℕ := l.foldl (fun a c => 10 * a + (c.toNat - 48)) 0

/-- Test for the regex `^\d{1,2}/\d{1,2}/\d{4}$` and, on a match, the
`split('/')` / `int` conversion: returns `(day, month, year)`. -/
def matchSlash (s : String) : Option (ℤ × ℤ × ℤ) :=
  match splitOnChar '/' s.toList with
  | [a, b, c] =>
    if allDigits a && 1 ≤ a.length && a.length ≤ 2 &&
        allDigits b && 1 ≤ b.length && b.length ≤ 2 &&
        allDigits c && c.length = 4 then
      some ((digitsToNat a : ℤ), (digitsToNat b : ℤ), (digitsToNat c : ℤ))
    else none
  | _ => none

/-- Test for the regex `^\d{1,2}-\d{1,2}-\d{4}$` and the matching
conversion: returns `(day, month, year)`. -/
def matchDash (s : String) : Option (ℤ × ℤ × ℤ) :=
  match splitOnChar '-' s.toList with
  | [a, b, c] =>
    if allDigits a && 1 ≤ a.length && a.length ≤ 2 &&
        allDigits b && 1 ≤ b.length && b.length ≤ 2 &&
        allDigits c && c.length = 4 then
      some ((digitsToNat a : ℤ), (digitsToNat b : ℤ), (digitsToNat c : ℤ))
    else none
  | _ => none

/-- The list starts with a digit. -/
def digitThen (l : List Char) : Bool :=
  match l with
  | c :: _ => c.isDigit
  | [] => false

/-- Tail of the unanchored regex `^\d{4}-\d{1,2}-\d{1,2}`: one or two digits,
a dash, then a digit. -/
def isoShape2 (l : List Char) : Bool :=
  match l with
  | x :: '-' :: rest => x.isDigit && digitThen rest
  | x :: y :: '-' :: rest => x.isDigit && y.isDigit && digitThen rest
  | _ => false

/-- Test for the unanchored regex `^\d{4}-\d{1,2}-\d{1,2}`. -/
def isoShape (l : List Char) : Bool :=
  match l with
  | a :: b :: c :: d :: '-' :: rest =>
    a.isDigit && b.isDigit && c.isDigit && d.isDigit && isoShape2 rest
  | _ => false

/-- Body of the `AAAA-MM-DD` branch: drop anything from the first space on,
split on `-`, convert the three parts with `int`, build the datetime; any
failure (wrong arity, bad `int`, invalid date) raises `ValueError`, which
the source catches, falling through to the serial-number attempt. -/
def isoParse (s : String) : Option PyDateTime :=
  let dp := s.toList.takeWhile (fun c => c ≠ ' ')
  match (splitOnChar '-' dp).mapM (fun p => pyInt (String.mk p)) with
  | some [y, m, d] => if validYMD y m d then some (mkDate y m d) else none
  | _ => none

/-- The function `WMSDataProcessor.parse_date`. `none` models returning Python `None`.
The three format branches form an `elif` chain keyed on the regex tests; a
branch whose regex matched but whose conversion raised `ValueError` falls
through to the Excel-serial attempt, exactly as in the source. A serial
strictly between 0 and 50000 yields `datetime(1899, 12, 30) +
timedelta(days=serial)`. -/
def parse_date (cell : Cell) : Option PyDateTime :=
  match cell with
  | none => none
  | some s0 =>
    if s0 = "" || s0 = "NULL" || s0 = "null" || s0 = "NaN" || s0 = "Invalid Date" then none
    else
      let s := pyStrip s0
      let textual : Option PyDateTime :=
        match matchSlash s with
        | some (d, m, y) => if validYMD y m d then some (mkDate y m d) else none
        | none =>
          match matchDash s with
          | some (d, m, y) => if validYMD y m d then some (mkDate y m d) else none
          | none => if isoShape s.toList then isoParse s else none
      match textual with
      | some dt => some dt
      | none =>
        match pyFloat s with
        | some (.fin q) =>
          if 0 < q ∧ q < 50000 then some ⟨civilToOrd 1899 12 30 + ⌊q⌋, q - ⌊q⌋⟩ else none
        | _ => none

/-- Substring test used by `WMSDataProcessor._find_column`: first header equal to a candidate, else
first header containing a candidate as a substring. -/
def strContains (c pat : String) : Bool :=
  c.toList.tails.any (fun t => pat.toList.isPrefixOf t)

/-- The function `WMSDataProcessor._find_column`. -/
def find_column (columns : List String) (possible_names : List String) : Option String :=
  match columns.find? (fun col => possible_names.contains col) with
  | some col => some col
  | none =>
    columns.find? (fun col => possible_names.any (fun cand => strContains col cand))

/-- The `col_mapping` dictionary of `process_data` (lines 108-129). -/
structure ColMapping where
  qt : Option String
  cod_prod : Option String
  descricao : Option String
  dt_val : Option String
  peso : Option String
  cod_fornec : Option String
  fornecedor : Option String
  cod_endereco : Option String
  deposito : Option String
  rua : Option String
  predio : Option String
  nivel : Option String
  apto : Option String
  status : Option String
  fator : Option String
  unidade : Option String
  capacidade : Option String
  qttotpal : Option String
  pesototal : Option String
  est : Option String
deriving DecidableEq

/-- Build the column mapping with the candidate lists of the source. -/
def buildMapping (cols : List String) : ColMapping where
  qt := find_column cols ["QT", "QUANTIDADE", "QUANTITY", "QTD"]
  cod_prod := find_column cols ["CODPROD", "COD_PROD", "PRODUTO", "CODIGO", "COD"]
  descricao := find_column cols ["DESCRICAO", "PRODUTO", "NOME", "DESCR"]
  dt_val := find_column cols ["DTVAL", "VALIDADE", "VENCIMENTO", "DATA"]
  peso := find_column cols ["PESOLIQUN", "PESO", "PESO_LIQUIDO"]
  cod_fornec := find_column cols ["CODFORNEC", "FORNECEDOR_COD", "COD_FORNECEDOR"]
  fornecedor := find_column cols ["FORNECEDOR", "FORNEC", "FORNECEDOR_NOME"]
  cod_endereco := find_column cols ["CODENDERECO", "ENDERECO", "LOCAL"]
  deposito := find_column cols ["DEPOSITO", "DEPOSITO_COD"]
  rua := find_column cols ["RUA", "RUA_COD"]
  predio := find_column cols ["PREDIO", "PREDIO_COD"]
  nivel := find_column cols ["NIVEL", "NIVEL_COD"]
  apto := find_column cols ["APTO", "APARTAMENTO"]
  status := find_column cols ["STATUS", "STATUS_PROD"]
  fator := find_column cols ["FATOR", "FATOR_EMB"]
  unidade := find_column cols ["UNIDADE", "UNID_MED"]
  capacidade := find_column cols ["CAPACIDADE", "CAPAC"]
  qttotpal := find_column cols ["QTTOTPAL", "TOTAL_PALETE"]
  pesototal := find_column cols ["PESOTOTAL", "PESO_TOTAL"]
  est := find_column cols ["EST", "ESTOQUE", "LOTE"]

/-- One dataframe row: an association list from column name to cell. -/
abbrev Row := List (String × Cell)

/-- Lookup `row[c]`; `none` models a `KeyError`. -/
def getCell (r : Row) (c : String) : Option Cell :=
  (r.find? (fun p => p.1 == c)).map (fun p => p.2)

/-- The loaded dataframe: normalized column headers and the data rows. -/
structure DF where
  columns : List String
  rows : List Row

/-- One `item_detalhado` record (lines 191-208). -/
structure Item where
  cod_endereco : Cell
  deposito : Cell
  rua : Cell
  predio : Cell
  nivel : Cell
  apto : Cell
  status : Cell
  quantidade : PyFloat
  data_validade : PyDateTime
  dias_restantes : ℤ
  fator : Cell
  unidade : Cell
  capacidade : Cell
  qttotpal : Cell
  pesototal : Cell
  est : Cell
deriving DecidableEq

/-- One month bucket of `vencimentos_por_mes` (lines 213-221); the
`'%m/%Y'` key is modelled as the (month, year) pair. -/
structure Venc where
  mes_ano : ℤ × ℤ
  quantidade : PyFloat
  dias_restantes : ℤ
deriving DecidableEq

/-- The product aggregate while rows are accumulated (lines 177-188);
`menor_dias_restantes = none` is the initial `float('inf')`. -/
structure ProdutoAcc where
  cod_prod : String
  nome : Cell
  fornecedor : Cell
  cod_fornec : Cell
  peso_liqun : Cell
  vencimentos_por_mes : List ((ℤ × ℤ) × Venc)
  quantidade_total : PyFloat
  menor_dias_restantes : Option ℤ
  quantidade_original : PyFloat
  itens_detalhados : List Item
deriving DecidableEq

/-- A finalized product (after lines 243-270). -/
structure Produto where
  cod_prod : String
  nome : Cell
  fornecedor : Cell
  cod_fornec : Cell
  peso_liqun : Cell
  vencimentos_por_mes : List Venc
  quantidade_total : PyFloat
  menor_dias_restantes : ℤ
  quantidade_original : PyFloat
  itens_detalhados : List Item
  criticidade : String
deriving DecidableEq

/-- The `estatisticas` dictionary. -/
structure Estat where
  total_linhas : ℕ
  linhas_processadas : ℕ
  linhas_ignoradas : ℕ
  datas_invalidas : ℕ
deriving DecidableEq

/-- Mutable state of the row loop. -/
structure LoopState where
  produtos : List (String × ProdutoAcc)
  linhas_processadas : ℕ
  linhas_ignoradas : ℕ
  datas_invalidas : ℕ

/-- Row lookup with a default for an unresolved optional column. -/
def cellOrD (r : Row) (co : Option String) (dflt : String) : Option Cell :=
  match co with
  | some c => getCell r c
  | none => some (some dflt)

/-- Evaluate the new-product dict literal (lines 177-188); the row lookups
happen in source order and a missing key raises (`none`). -/
def mkProdutoAcc (r : Row) (m : ColMapping) (cod : String) (qt : PyFloat) :
    Option ProdutoAcc :=
  match cellOrD r m.descricao ("Produto " ++ cod), cellOrD r m.fornecedor "Sem fornecedor",
      cellOrD r m.cod_fornec "", cellOrD r m.peso "" with
  | some nome, some forn, some cfor, some peso =>
    some { cod_prod := cod, nome := nome, fornecedor := forn, cod_fornec := cfor,
           peso_liqun := peso, vencimentos_por_mes := [], quantidade_total := .fin 0,
           menor_dias_restantes := none, quantidade_original := qt, itens_detalhados := [] }
  | _, _, _, _ => none

/-- Row lookup with the `''` default used for the optional item columns. -/
def cellOr (r : Row) (co : Option String) : Option Cell :=
  match co with
  | some c => getCell r c
  | none => some (some "")

/-- Evaluate the `item_detalhado` dict literal (lines 191-208); each
unresolved optional column contributes `''`, each resolved one a row lookup
that may raise. -/
def mkItem (r : Row) (m : ColMapping) (qt : PyFloat) (dtv : PyDateTime) (dias : ℤ) :
    Option Item :=
  match cellOr r m.cod_endereco, cellOr r m.deposito, cellOr r m.rua, cellOr r m.predio,
      cellOr r m.nivel, cellOr r m.apto, cellOr r m.status, cellOr r m.fator,
      cellOr r m.unidade, cellOr r m.capacidade, cellOr r m.qttotpal, cellOr r m.pesototal,
      cellOr r m.est with
  | some ce, some dep, some rua, some pre, some niv, some apt, some st, some fat,
      some uni, some cap, some qtp, some pto, some est =>
    some { cod_endereco := ce, deposito := dep, rua := rua, predio := pre, nivel := niv,
           apto := apt, status := st, quantidade := qt, data_validade := dtv,
           dias_restantes := dias, fator := fat, unidade := uni, capacidade := cap,
           qttotpal := qtp, pesototal := pto, est := est }
  | _, _, _, _, _, _, _, _, _, _, _, _, _ => none

/-- The quantity conversion (lines 160-163): truthiness test, comma to dot,
`float(...)`, `ValueError` recovered as 0. A missing quantity cell prints as
`'nan'` and parses to `nan`. -/
def qtOfCell (c : Cell) : PyFloat :=
  if cellTruthy c then
    match pyFloat (String.mk ((cellStr c).toList.map (fun ch => if ch = ',' then '.' else ch))) with
    | some v => v
    | none => .fin 0
  else .fin 0

/-- Mutations applied to an aggregate for one processed row (lines
210-227): append the item, update the month bucket, add to the total,
lower the minimum. -/
def addRowToProduto (p : ProdutoAcc) (item : Item) (qt : PyFloat) (dias : ℤ)
    (my : ℤ × ℤ) : ProdutoAcc :=
  let vm :=
    if (p.vencimentos_por_mes.find? (fun e => e.1 == my)).isSome then p.vencimentos_por_mes
    else p.vencimentos_por_mes ++ [(my, { mes_ano := my, quantidade := .fin 0, dias_restantes := dias })]
  { p with
    itens_detalhados := p.itens_detalhados ++ [item],
    vencimentos_por_mes :=
      vm.map (fun e => if e.1 == my then (e.1, { e.2 with quantidade := e.2.quantidade.add qt }) else e),
    quantidade_total := p.quantidade_total.add qt,
    menor_dias_restantes :=
      match p.menor_dias_restantes with
      | none => some dias
      | some m0 => if dias < m0 then some dias else some m0 }

/-- Count a skipped row. -/
def ignoreRow (st : LoopState) : LoopState :=
  { st with linhas_ignoradas := st.linhas_ignoradas + 1 }

/-- One iteration of the row loop (lines 148-231), with the `try/except`
recovery: a raising lookup leaves the already-applied mutations in place
and counts the row as ignored. -/
def processRow (m : ColMapping) (codc dtc : String) (hoje : ℤ)
    (st : LoopState) (r : Row) : LoopState :=
  match getCell r codc with
  | none => ignoreRow st
  | some codCell =>
  match (match m.qt with | some c => getCell r c | none => some (some "0")) with
  | none => ignoreRow st
  | some qtCell =>
  match getCell r dtc with
  | none => ignoreRow st
  | some dtCell =>
  match codCell with
  | none => ignoreRow st
  | some cod =>
  if pyStrip cod = "" then ignoreRow st
  else
    let qt := qtOfCell qtCell
    match parse_date dtCell with
    | none =>
      { st with datas_invalidas := st.datas_invalidas + 1,
                linhas_ignoradas := st.linhas_ignoradas + 1 }
    | some dtv =>
      let dias := dtv.ord - hoje
      match (if (st.produtos.find? (fun e => e.1 == cod)).isSome then some st.produtos
             else (mkProdutoAcc r m cod qt).map (fun p => st.produtos ++ [(cod, p)])) with
      | none => ignoreRow st
      | some prods1 =>
        match mkItem r m qt dtv dias with
        | none => { st with produtos := prods1, linhas_ignoradas := st.linhas_ignoradas + 1 }
        | some item =>
          { st with
            produtos := prods1.map (fun e =>
              if e.1 == cod then (e.1, addRowToProduto e.2 item qt dias (ordToMonthYear dtv.ord)) else e),
            linhas_processadas := st.linhas_processadas + 1 }

/-- Item order used by `itens_detalhados.sort(key=...)`. -/
def itemLe (a b : Item) : Prop := a.dias_restantes ≤ b.dias_restantes

/-- Month-bucket order used by `vencimentos.sort(key=...)`. -/
def vencLe (a b : Venc) : Prop := a.dias_restantes ≤ b.dias_restantes

instance : DecidableRel itemLe := fun a b => Int.decLe _ _

instance : DecidableRel vencLe := fun a b => Int.decLe _ _

instance : IsTotal Item itemLe := ⟨fun a b => le_total a.dias_restantes b.dias_restantes⟩

instance : IsTrans Item itemLe := ⟨fun _ _ _ h1 h2 => le_trans h1 h2⟩

instance : IsTotal Venc vencLe := ⟨fun a b => le_total a.dias_restantes b.dias_restantes⟩

instance : IsTrans Venc vencLe := ⟨fun _ _ _ h1 h2 => le_trans h1 h2⟩

/-- The criticality computation (lines 252-262) on the accumulated minimum
(`none` is the initial `float('inf')`, for which every comparison is
false). -/
def critOf (menor : Option ℤ) : String :=
  match menor with
  | none => "baixa"
  | some d =>
    if d < 0 then "vencido" else if d ≤ 30 then "alta" else if d ≤ 60 then "média" else "baixa"

/-- Finalize one aggregate (lines 243-270): sort the items and month buckets
(Python's stable sort, modelled by the stable insertion sort), compute the
tier, and replace the infinite sentinel by 999. -/
def finalizeProduto (p : ProdutoAcc) : Produto :=
  { cod_prod := p.cod_prod, nome := p.nome, fornecedor := p.fornecedor,
    cod_fornec := p.cod_fornec, peso_liqun := p.peso_liqun,
    vencimentos_por_mes := List.insertionSort vencLe (p.vencimentos_por_mes.map (fun e => e.2)),
    quantidade_total := p.quantidade_total,
    menor_dias_restantes := p.menor_dias_restantes.getD 999,
    quantidade_original := p.quantidade_original,
    itens_detalhados := List.insertionSort itemLe p.itens_detalhados,
    criticidade := critOf p.menor_dias_restantes }

/-- The `resumo` dictionary. -/
structure Resumo where
  total_produtos : ℕ
  total_itens : PyFloat
  produtos_vencendo_30_dias : ℕ
  produtos_vencendo_60_dias : ℕ
  produtos_vencidos : ℕ
deriving DecidableEq

/-- The summary produced by the finalization loop (lines 234-273), written
as counts over the finalized list: the loop increments exactly one counter
per product according to its tier and sums the absolute totals. -/
def mkResumo (finals : List Produto) : Resumo :=
  { total_produtos := finals.length,
    total_itens := finals.foldl (fun a p => a.add p.quantidade_total.abs) (.fin 0),
    produtos_vencendo_30_dias := finals.countP (fun p => p.criticidade == "alta"),
    produtos_vencendo_60_dias := finals.countP (fun p => p.criticidade == "média"),
    produtos_vencidos := finals.countP (fun p => p.criticidade == "vencido") }

/-- The sort key of lines 276-281: the tier rank recomputed from the
(already 999-replaced) minimum, then the minimum itself. -/
def tierRank (menor : ℤ) : ℕ :=
  if menor < 0 then 0 else if menor ≤ 30 then 1 else if menor ≤ 60 then 2 else 3

/-- Lexicographic comparison of the sort keys of two products. -/
def prodLe (p q : Produto) : Prop :=
  tierRank p.menor_dias_restantes < tierRank q.menor_dias_restantes ∨
    (tierRank p.menor_dias_restantes = tierRank q.menor_dias_restantes ∧
      p.menor_dias_restantes ≤ q.menor_dias_restantes)

instance : DecidableRel prodLe := fun _ _ => instDecidableOr

instance : IsTotal Produto prodLe where
  total p q := by
    rcases lt_trichotomy (tierRank p.menor_dias_restantes) (tierRank q.menor_dias_restantes) with h | h | h
    · exact Or.inl (Or.inl h)
    · rcases le_total p.menor_dias_restantes q.menor_dias_restantes with h2 | h2
      · exact Or.inl (Or.inr ⟨h, h2⟩)
      · exact Or.inr (Or.inr ⟨h.symm, h2⟩)
    · exact Or.inr (Or.inl h)

instance : IsTrans Produto prodLe where
  trans p q r h1 h2 := by
    rcases h1 with h1 | ⟨e1, l1⟩
    · rcases h2 with h2 | ⟨e2, _⟩
      · exact Or.inl (lt_trans h1 h2)
      · exact Or.inl (e2 ▸ h1)
    · rcases h2 with h2 | ⟨e2, l2⟩
      · exact Or.inl (e1 ▸ h2)
      · exact Or.inr ⟨e1.trans e2, le_trans l1 l2⟩

/-- The `filtros` dictionary. Supplier names are stored as raw values, the
other three collections as strings (see `extrairFiltros`). -/
structure Filtros where
  fornecedores : List Cell
  cods_fornecedor : List String
  pesos_liquidos : List String
  cods_produto : List String
deriving DecidableEq

/-- Python `sorted(...)` over the deduplicated raw supplier values: a list
of strings sorts lexicographically, a list needing no comparison is
returned as is, and comparing a missing value (`NaN`) with a string raises
`TypeError`. -/
def pySortedCells (l : List Cell) : Except Unit (List Cell) :=
  if l.all (fun c => c.isSome) then
    .ok ((List.insertionSort (· ≤ ·) (l.filterMap id)).map (fun s => some s))
  else if l.length ≤ 1 then .ok l
  else .error ()

/-- The function `WMSDataProcessor._extrair_filtros`. Python-set deduplication is
modelled by `dedup` (the pandas `NaN` is a single object, so it also
deduplicates); only the supplier-name set stores the raw cell without
`str(...)`. -/
def extrairFiltros (produtos : List Produto) : Except Unit Filtros := do
  let fornecedores :=
    (produtos.filterMap (fun p => if cellTruthy p.fornecedor then some p.fornecedor else none)).dedup
  let codsF :=
    (produtos.filterMap (fun p => if cellTruthy p.cod_fornec then some (cellStr p.cod_fornec) else none)).dedup
  let pesos :=
    (produtos.filterMap (fun p => if cellTruthy p.peso_liqun then some (cellStr p.peso_liqun) else none)).dedup
  let codsP :=
    (produtos.filterMap (fun p => if p.cod_prod ≠ "" then some p.cod_prod else none)).dedup
  let fs ← pySortedCells fornecedores
  pure { fornecedores := fs,
         cods_fornecedor := List.insertionSort (· ≤ ·) codsF,
         pesos_liquidos := List.insertionSort (· ≤ ·) pesos,
         cods_produto := List.insertionSort (· ≤ ·) codsP }

/-- Recommendation strings of `_gerar_recomendacoes`. -/
def msgVencidos (n : ℕ) : String :=
  "⚠️ " ++ toString n ++ " produtos já vencidos - necessário descarte imediato"

/-- Prioritize-sale warning. -/
def msgCriticos (n : ℕ) : String :=
  "🔴 " ++ toString n ++ " produtos vencem em até 30 dias - priorizar venda/uso"

/-- Attention notice. -/
def msgMedios (n : ℕ) : String :=
  "🟡 " ++ toString n ++ " produtos vencem em 31-60 dias - atenção necessária"

/-- Promotion suggestion. -/
def msgGrandes (n : ℕ) : String :=
  "📦 " ++ toString n ++ " produtos com grandes quantidades próximas do vencimento - considerar promoções"

/-- Situation-under-control message. -/
def msgControle : String := "✅ Situação sob controle - estoque com boa validade"

/-- The function `WMSDataProcessor._gerar_recomendacoes`. -/
def gerarRecomendacoes (produtos : List Produto) : List String :=
  let vencidos := produtos.filter (fun p => p.menor_dias_restantes < 0)
  let criticos := produtos.filter (fun p => p.criticidade == "alta")
  let medios := produtos.filter (fun p => p.criticidade == "média")
  let grandes := produtos.filter (fun p => p.quantidade_total.gtQ 100 && p.criticidade != "baixa")
  let recs :=
    (if vencidos.length ≠ 0 then [msgVencidos vencidos.length] else []) ++
    (if criticos.length ≠ 0 then [msgCriticos criticos.length] else []) ++
    (if medios.length ≠ 0 then [msgMedios medios.length] else []) ++
    (if grandes.length ≠ 0 then [msgGrandes grandes.length] else [])
  if recs = [] then [msgControle] else recs

/-- The fatal errors `process_data` can raise: the two configuration
`ValueError`s and the `TypeError` of sorting a mixed supplier set. -/
inductive PErr where
  | dtvalMissing
  | codProdMissing
  | typeErr
deriving DecidableEq

/-- The returned analysis dictionary. -/
structure AnalysisResult where
  resumo : Resumo
  produtos_criticos : List Produto
  filtros : Filtros
  recomendacoes : List String
  estatisticas : Estat
  colunas_mapeadas : ColMapping
deriving DecidableEq

/-- Initial loop state. -/
def initState : LoopState :=
  { produtos := [], linhas_processadas := 0, linhas_ignoradas := 0, datas_invalidas := 0 }

/-- The function `WMSDataProcessor.process_data`; the reference date `hoje` (midnight) is
passed as a day number. -/
def process_data (df : DF) (hoje : ℤ) : Except PErr AnalysisResult :=
  let m := buildMapping df.columns
  match m.dt_val with
  | none => .error .dtvalMissing
  | some dtc =>
    match m.cod_prod with
    | none => .error .codProdMissing
    | some codc =>
      let st := df.rows.foldl (processRow m codc dtc hoje) initState
      let finals := st.produtos.map (fun e => finalizeProduto e.2)
      let resumo := mkResumo finals
      let sortedProds := List.insertionSort prodLe finals
      match extrairFiltros sortedProds with
      | .error _ => .error .typeErr
      | .ok filtros =>
        .ok { resumo := resumo,
              produtos_criticos := sortedProds,
              filtros := filtros,
              recomendacoes := gerarRecomendacoes sortedProds,
              estatisticas := { total_linhas := df.rows.length,
                                linhas_processadas := st.linhas_processadas,
                                linhas_ignoradas := st.linhas_ignoradas,
                                datas_invalidas := st.datas_invalidas },
              colunas_mapeadas := m }

/-! Derived definitions used to state the claims. -/

/-- Tier boundary rules as the specification states them, as a function of
the finalized minimum days-remaining. -/
def critSpec (menor : ℤ) : String :=
  if menor < 0 then "vencido"
  else if menor ≤ 30 then "alta"
  else if menor ≤ 60 then "média"
  else "baixa"

/-- Rank of a criticality tier (expired 0, high 1, medium 2, low 3). -/
def tierRankOf (crit : String) : ℕ :=
  if crit = "vencido" then 0 else if crit = "alta" then 1 else if crit = "média" then 2 else 3

/-- Sum of the quantities of a list of items, folded as the row loop does. -/
def sumQt (items : List Item) : PyFloat :=
  items.foldl (fun a i => a.add i.quantidade) (.fin 0)

/-- The running minimum of `dias_restantes` over a list of items, folded as
the row loop does (`none` is the initial `float('inf')`). -/
def minDias (items : List Item) : Option ℤ :=
  items.foldl (fun acc i =>
    match acc with
    | none => some i.dias_restantes
    | some m0 => if i.dias_restantes < m0 then some i.dias_restantes else some m0) none

/-- A column mapping with nothing resolved (fallback value only). -/
def emptyMapping : ColMapping :=
  { qt := none, cod_prod := none, descricao := none, dt_val := none, peso := none,
    cod_fornec := none, fornecedor := none, cod_endereco := none, deposito := none,
    rua := none, predio := none, nivel := none, apto := none, status := none,
    fator := none, unidade := none, capacidade := none, qttotpal := none,
    pesototal := none, est := none }

/-- An empty analysis result (fallback value only). -/
def emptyResult : AnalysisResult :=
  { resumo := { total_produtos := 0, total_itens := .fin 0, produtos_vencendo_30_dias := 0,
                produtos_vencendo_60_dias := 0, produtos_vencidos := 0 },
    produtos_criticos := [],
    filtros := { fornecedores := [], cods_fornecedor := [], pesos_liquidos := [], cods_produto := [] },
    recomendacoes := [], colunas_mapeadas := emptyMapping,
    estatisticas := { total_linhas := 0, linhas_processadas := 0, linhas_ignoradas := 0,
                      datas_invalidas := 0 } }

/-- The analysis of a dataframe, with a fallback on error (used to state
closed concrete facts). -/
def resultOf (df : DF) (hoje : ℤ) : AnalysisResult :=
  ((process_data df hoje).toOption).getD emptyResult

/-- Reference date for concrete examples: 2025-06-10. -/
def whoje : ℤ := civilToOrd 2025 6 10

/-- A small dataframe for concrete examples: one product with two valid
rows, plus a row with an unparseable date. -/
def wdf : DF :=
  { columns := ["CODPROD", "DTVAL", "QT", "FORNECEDOR"],
    rows := [[("CODPROD", some "A"), ("DTVAL", some "15/06/2025"), ("QT", some "2,5"),
              ("FORNECEDOR", some "ACME")],
             [("CODPROD", some "A"), ("DTVAL", some "20/07/2025"), ("QT", some "3"),
              ("FORNECEDOR", some "ACME")],
             [("CODPROD", some "B"), ("DTVAL", some "bogus"), ("QT", some "1"),
              ("FORNECEDOR", some "ACME")]] }

/-- The analysis of `wdf`. -/
def wres : AnalysisResult := resultOf wdf whoje

/-- An empty dataframe (zero data rows, resolvable mandatory columns). -/
def c8df : DF := { columns := ["CODPROD", "DTVAL"], rows := [] }

/-- A dataframe whose single row has a missing (`NaN`) supplier cell. -/
def c9df : DF :=
  { columns := ["CODPROD", "DTVAL", "FORNECEDOR"],
    rows := [[("CODPROD", some "A"), ("DTVAL", some "15/06/2025"), ("FORNECEDOR", none)]] }

/-- Fallback item (only used as a `getD` default). -/
def dummyItem : Item :=
  { cod_endereco := none, deposito := none, rua := none, predio := none, nivel := none,
    apto := none, status := none, quantidade := .fin 0, data_validade := ⟨0, 0⟩,
    dias_restantes := 0, fator := none, unidade := none, capacidade := none,
    qttotpal := none, pesototal := none, est := none }

/-- Fallback accumulator (only used as a `getD` default). -/
def dummyAcc : ProdutoAcc :=
  { cod_prod := "", nome := none, fornecedor := none, cod_fornec := none, peso_liqun := none,
    vencimentos_por_mes := [], quantidade_total := .fin 0, menor_dias_restantes := none,
    quantidade_original := .fin 0, itens_detalhados := [] }

/-- A row with a malformed quantity. -/
def c6r : Row := [("CODPROD", some "A"), ("DTVAL", some "15/06/2025"), ("QT", some "abc")]

/-- Mapping for the malformed-quantity example. -/
def c6m : ColMapping := buildMapping ["CODPROD", "DTVAL", "QT"]

/-- The product list after creating the product of `c6r`. -/
def c6prods : List (String × ProdutoAcc) :=
  [("A", (mkProdutoAcc c6r c6m "A" (qtOfCell (some "abc"))).getD dummyAcc)]

/-- The item built from `c6r`. -/
def c6item : Item :=
  (mkItem c6r c6m (qtOfCell (some "abc")) (mkDate 2025 6 15)
    ((mkDate 2025 6 15).ord - whoje)).getD dummyItem

/-- Aggregation invariant of one accumulator: the stored total is the sum
of its items' quantities and the stored minimum is the running minimum of
its items' days-remaining. -/
def AccInv (p : ProdutoAcc) : Prop :=
  p.quantidade_total = sumQt p.itens_detalhados ∧
  p.menor_dias_restantes = minDias p.itens_detalhados

/-- A two-row dataframe with one product code and two dates/quantities. -/
def twoRowDF (code d1 d2 q1 q2 : String) : DF :=
  { columns := ["CODPROD", "DTVAL", "QT"],
    rows := [[("CODPROD", some code), ("DTVAL", some d1), ("QT", some q1)],
             [("CODPROD", some code), ("DTVAL", some d2), ("QT", some q2)]] }

/-- The accumulator created for the first row of `twoRowDF`. -/
def twoRowAcc (code q : String) : ProdutoAcc :=
  { cod_prod := code, nome := some ("Produto " ++ code), fornecedor := some "Sem fornecedor",
    cod_fornec := some "", peso_liqun := some "", vencimentos_por_mes := [],
    quantidade_total := .fin 0, menor_dias_restantes := none,
    quantidade_original := qtOfCell (some q), itens_detalhados := [] }

/-- The item built from a `twoRowDF` row. -/
def twoRowItem (q : String) (dtv : PyDateTime) (hoje : ℤ) : Item :=
  { cod_endereco := some "", deposito := some "", rua := some "", predio := some "",
    nivel := some "", apto := some "", status := some "", quantidade := qtOfCell (some q),
    data_validade := dtv, dias_restantes := dtv.ord - hoje, fator := some "",
    unidade := some "", capacidade := some "", qttotpal := some "", pesototal := some "",
    est := some "" }

/-- The C4 example: same code, two dates, quantities 2,5 and 3. -/
def c4df : DF := twoRowDF "A" "15/06/2025" "20/07/2025" "2,5" "3"

/-- The analysis of `c4df`. -/
def c4res : AnalysisResult := resultOf c4df whoje

/-- The single product of `c4res`. -/
def c4p : Produto := c4res.produtos_criticos.headD (finalizeProduto dummyAcc)

/-- A one-row dataframe whose quantity cell is malformed. -/
def c5df : DF :=
  { columns := ["CODPROD", "DTVAL", "QT"],
    rows := [[("CODPROD", some "A"), ("DTVAL", some "15/06/2025"), ("QT", some "abc")]] }

/-- A dataframe with no resolvable expiration-date column. -/
def c5badcols : DF := { columns := ["CODPROD", "FOO"], rows := [] }

/-! Theorems. -/

/-- Unfolding of `process_data` in the successful case. -/
theorem process_data_ok_inv {df : DF} {hoje : ℤ} {res : AnalysisResult}
    (h : process_data df hoje = .ok res) :
    ∃ dtc codc,
      (buildMapping df.columns).dt_val = some dtc ∧
      (buildMapping df.columns).cod_prod = some codc ∧
      res.produtos_criticos =
        List.insertionSort prodLe
          ((df.rows.foldl (processRow (buildMapping df.columns) codc dtc hoje) initState).produtos.map
            (fun e => finalizeProduto e.2)) ∧
      res.resumo =
        mkResumo
          ((df.rows.foldl (processRow (buildMapping df.columns) codc dtc hoje) initState).produtos.map
            (fun e => finalizeProduto e.2)) ∧
      res.recomendacoes = gerarRecomendacoes res.produtos_criticos ∧
      extrairFiltros res.produtos_criticos = .ok res.filtros ∧
      res.estatisticas =
        { total_linhas := df.rows.length,
          linhas_processadas :=
            (df.rows.foldl (processRow (buildMapping df.columns) codc dtc hoje) initState).linhas_processadas,
          linhas_ignoradas :=
            (df.rows.foldl (processRow (buildMapping df.columns) codc dtc hoje) initState).linhas_ignoradas,
          datas_invalidas :=
            (df.rows.foldl (processRow (buildMapping df.columns) codc dtc hoje) initState).datas_invalidas } := by
  unfold process_data at h
  cases hdt : (buildMapping df.columns).dt_val with
  | none => simp [hdt] at h
  | some dtc =>
    cases hcod : (buildMapping df.columns).cod_prod with
    | none => simp [hdt, hcod] at h
    | some codc =>
      simp only [hdt, hcod] at h
      cases hf : extrairFiltros
          (List.insertionSort prodLe
            ((df.rows.foldl (processRow (buildMapping df.columns) codc dtc hoje) initState).produtos.map
              (fun e => finalizeProduto e.2))) with
      | error e => rw [hf] at h; simp at h
      | ok filtros =>
        rw [hf] at h
        have hres := Except.ok.inj h
        subst hres
        exact ⟨dtc, codc, rfl, rfl, rfl, rfl, rfl, hf, rfl⟩

/-- The tier stored by finalization agrees with the boundary rules applied
to the 999-replaced minimum. -/
theorem critOf_getD (mo : Option ℤ) : critOf mo = critSpec (mo.getD 999) := by
  cases mo with
  | none => decide
  | some d => rfl

/-- Claim C1: the criticality tier of every product in the result is the
pure boundary function of its minimum days-remaining (`< 0` expired,
`<= 30` high, `<= 60` medium, otherwise low), and each summary counter
equals the number of products with the corresponding tier. -/
theorem c1_tier_and_counters (df : DF) (hoje : ℤ) (res : AnalysisResult)
    (h : process_data df hoje = .ok res) :
    (∀ p ∈ res.produtos_criticos, p.criticidade = critSpec p.menor_dias_restantes) ∧
    res.resumo.produtos_vencidos =
      (res.produtos_criticos.filter (fun p => p.criticidade == "vencido")).length ∧
    res.resumo.produtos_vencendo_30_dias =
      (res.produtos_criticos.filter (fun p => p.criticidade == "alta")).length ∧
    res.resumo.produtos_vencendo_60_dias =
      (res.produtos_criticos.filter (fun p => p.criticidade == "média")).length := by
  obtain ⟨dtc, codc, hdt, hcod, hprod, hres, -, -, -⟩ := process_data_ok_inv h
  constructor
  · intro p hp
    rw [hprod, List.mem_insertionSort] at hp
    obtain ⟨e, -, rfl⟩ := List.mem_map.mp hp
    simpa [finalizeProduto] using critOf_getD _
  · have hperm :
        (List.insertionSort prodLe
          ((df.rows.foldl (processRow (buildMapping df.columns) codc dtc hoje) initState).produtos.map
            (fun e => finalizeProduto e.2))).Perm
          ((df.rows.foldl (processRow (buildMapping df.columns) codc dtc hoje) initState).produtos.map
            (fun e => finalizeProduto e.2)) :=
      List.perm_insertionSort _ _
    refine ⟨?_, ?_, ?_⟩ <;>
      rw [hres, hprod, ← List.countP_eq_length_filter, hperm.countP_eq] <;> rfl

/-- Witness for C1 at the concrete dataframe `wdf`. -/
theorem c1_witness :
    process_data wdf whoje = .ok wres ∧
    wres.resumo.produtos_vencendo_30_dias =
      (wres.produtos_criticos.filter (fun p => p.criticidade == "alta")).length :=
  ⟨by rfl, (c1_tier_and_counters wdf whoje wres (by rfl)).2.2.1⟩

/-- Claim C2: a string of shape `D/M/YYYY` or `DD/MM/YYYY` with a
calendar-valid day/month parses to exactly that calendar date;
`32/01/2024` is unparseable; a string matching none of the three textual
formats whose `float(...)` value is strictly between 0 and 50000 yields
`1899-12-30` plus that many days, so serial `1` yields `1899-12-31`. -/
theorem c2_parse_date (s : String) :
    (∀ d m y : ℤ, matchSlash (pyStrip s) = some (d, m, y) → validYMD y m d = true →
      parse_date (some s) = some (mkDate y m d)) ∧
    parse_date (some "32/01/2024") = none ∧
    (∀ q : ℚ, matchSlash (pyStrip s) = none → matchDash (pyStrip s) = none →
      isoShape (pyStrip s).toList = false → pyFloat (pyStrip s) = some (.fin q) →
      0 < q → q < 50000 →
      ∃ dt, parse_date (some s) = some dt ∧
        dt.ratDays = (mkDate 1899 12 30).ratDays + q) ∧
    parse_date (some "1") = some (mkDate 1899 12 31) := by
  refine ⟨?_, by decide, ?_, by with_unfolding_all rfl⟩
  · intro d m y hm hv
    have hnn : matchSlash (pyStrip s) ≠ none := by rw [hm]; exact fun hc => Option.noConfusion hc
    have h1 : s ≠ "" := by rintro rfl; exact hnn (by decide)
    have h2 : s ≠ "NULL" := by rintro rfl; exact hnn (by decide)
    have h3 : s ≠ "null" := by rintro rfl; exact hnn (by decide)
    have h4 : s ≠ "NaN" := by rintro rfl; exact hnn (by decide)
    have h5 : s ≠ "Invalid Date" := by rintro rfl; exact hnn (by decide)
    simp [parse_date, h1, h2, h3, h4, h5, hm, hv]
  · intro q hs hd hi hq h0 h50
    have h1 : s ≠ "" := by
      rintro rfl
      exact Option.noConfusion ((show pyFloat (pyStrip "") = none by decide).symm.trans hq)
    have h2 : s ≠ "NULL" := by
      rintro rfl
      exact Option.noConfusion ((show pyFloat (pyStrip "NULL") = none by decide).symm.trans hq)
    have h3 : s ≠ "null" := by
      rintro rfl
      exact Option.noConfusion ((show pyFloat (pyStrip "null") = none by decide).symm.trans hq)
    have h4 : s ≠ "NaN" := by
      rintro rfl
      exact PyFloat.noConfusion (Option.some.inj
        ((show pyFloat (pyStrip "NaN") = some PyFloat.nan by decide).symm.trans hq))
    have h5 : s ≠ "Invalid Date" := by
      rintro rfl
      exact Option.noConfusion ((show pyFloat (pyStrip "Invalid Date") = none by decide).symm.trans hq)
    have hi2 : isoShape (pyStrip s).data = false := hi
    refine ⟨⟨civilToOrd 1899 12 30 + ⌊q⌋, q - ⌊q⌋⟩, ?_, ?_⟩
    · simp [parse_date, h1, h2, h3, h4, h5, hs, hd, hi2, hq, h0, h50]
    · simp only [PyDateTime.ratDays, mkDate]
      push_cast
      ring

/-- Witness for C2: a calendar date and a fractional serial. -/
theorem c2_witness :
    parse_date (some "15/06/2025") = some (mkDate 2025 6 15) ∧
    (parse_date (some "2.5")).isSome = true := by
  refine ⟨(c2_parse_date "15/06/2025").1 15 6 2025 (by decide) (by decide), ?_⟩
  obtain ⟨dt, hdt, -⟩ := (c2_parse_date "2.5").2.2.1 (5 / 2) (by decide) (by decide) (by decide)
    (by with_unfolding_all decide) (by norm_num) (by norm_num)
  rw [hdt]
  rfl

/-- Finding over an append whose left part fails the predicate. -/
theorem find?_append_first {α : Type} (p : α → Bool) (l1 : List α) (c : α) (l2 : List α)
    (h1 : ∀ x ∈ l1, p x = false) (hc : p c = true) :
    (l1 ++ c :: l2).find? p = some c := by
  induction l1 with
  | nil => simp [List.find?_cons, hc]
  | cons a t ih =>
    have ha : p a = false := h1 a (List.mem_cons_self a t)
    simp only [List.cons_append, List.find?_cons, ha, cond_false]
    exact ih (fun x hx => h1 x (List.mem_cons_of_mem a hx))

/-- Claim C3: the column resolver returns the first header that exactly
equals a candidate; if none does, the first header containing a candidate
as a substring; if neither pass matches, the field is unresolved — so an
exact match anywhere beats every substring match. -/
theorem c3_find_column (cols cands : List String) :
    (∀ l1 c l2, cols = l1 ++ c :: l2 → cands.contains c = true →
      (∀ x ∈ l1, cands.contains x = false) → find_column cols cands = some c) ∧
    (∀ l1 c l2, cols = l1 ++ c :: l2 → (∀ x ∈ cols, cands.contains x = false) →
      cands.any (fun cand => strContains c cand) = true →
      (∀ x ∈ l1, cands.any (fun cand => strContains x cand) = false) →
      find_column cols cands = some c) ∧
    ((∀ x ∈ cols, cands.contains x = false ∧
        cands.any (fun cand => strContains x cand) = false) →
      find_column cols cands = none) := by
  refine ⟨?_, ?_, ?_⟩
  · intro l1 c l2 hsplit hc h1
    subst hsplit
    unfold find_column
    rw [find?_append_first (fun col => cands.contains col) l1 c l2 h1 hc]
  · intro l1 c l2 hsplit hnone hc h1
    subst hsplit
    unfold find_column
    have hfe : ((l1 ++ c :: l2).find? fun col => cands.contains col) = none :=
      List.find?_eq_none.mpr (fun x hx => by simpa using hnone x hx)
    rw [hfe, find?_append_first (fun col => cands.any (fun cand => strContains col cand)) l1 c l2 h1 hc]
  · intro hb
    unfold find_column
    have hfe : (cols.find? fun col => cands.contains col) = none :=
      List.find?_eq_none.mpr (fun x hx => by simpa using (hb x hx).1)
    have hfs : (cols.find? fun col => cands.any (fun cand => strContains col cand)) = none :=
      List.find?_eq_none.mpr (fun x hx => by simpa using (hb x hx).2)
    rw [hfe, hfs]

/-- Witness for C3: the specification's header example, an exact match and
a substring fallback. -/
theorem c3_witness :
    find_column ["CODPROD", "DESCRICAO", "DTVAL", "QT"] ["QT", "QUANTIDADE", "QUANTITY", "QTD"] =
      some "QT" ∧
    find_column ["QTD_TOTAL"] ["QT", "QUANTIDADE", "QUANTITY", "QTD"] = some "QTD_TOTAL" :=
  ⟨(c3_find_column ["CODPROD", "DESCRICAO", "DTVAL", "QT"] ["QT", "QUANTIDADE", "QUANTITY", "QTD"]).1
      ["CODPROD", "DESCRICAO", "DTVAL"] "QT" [] (by decide) (by decide) (by decide),
   (c3_find_column ["QTD_TOTAL"] ["QT", "QUANTIDADE", "QUANTITY", "QTD"]).2.1
      [] "QTD_TOTAL" [] (by decide) (by decide) (by decide) (by decide)⟩

/-- Every row is counted exactly once (processed or ignored), and an
invalid-date increment always comes with an ignored increment. -/
theorem processRow_accounting (m : ColMapping) (codc dtc : String) (hoje : ℤ)
    (st : LoopState) (r : Row) :
    ((processRow m codc dtc hoje st r).linhas_processadas +
        (processRow m codc dtc hoje st r).linhas_ignoradas =
      st.linhas_processadas + st.linhas_ignoradas + 1) ∧
    ((processRow m codc dtc hoje st r).datas_invalidas + st.linhas_ignoradas ≤
      st.datas_invalidas + (processRow m codc dtc hoje st r).linhas_ignoradas) ∧
    st.datas_invalidas ≤ (processRow m codc dtc hoje st r).datas_invalidas := by
  unfold processRow
  repeat' split
  all_goals try simp [ignoreRow]
  all_goals repeat' split
  all_goals try simp
  all_goals omega

/-- Claim C10: for every table whose mandatory columns resolve, the
statistics are conserved — `total_rows = processed + ignored` and
`invalid_date_rows <= ignored_rows`. -/
theorem c10_statistics (df : DF) (hoje : ℤ) (res : AnalysisResult)
    (h : process_data df hoje = .ok res) :
    res.estatisticas.total_linhas =
      res.estatisticas.linhas_processadas + res.estatisticas.linhas_ignoradas ∧
    res.estatisticas.datas_invalidas ≤ res.estatisticas.linhas_ignoradas := by
  obtain ⟨dtc, codc, -, -, -, -, -, -, hstat⟩ := process_data_ok_inv h
  have key : ∀ rows : List Row, ∀ st : LoopState,
      ((rows.foldl (processRow (buildMapping df.columns) codc dtc hoje) st).linhas_processadas +
          (rows.foldl (processRow (buildMapping df.columns) codc dtc hoje) st).linhas_ignoradas =
        st.linhas_processadas + st.linhas_ignoradas + rows.length) ∧
      ((rows.foldl (processRow (buildMapping df.columns) codc dtc hoje) st).datas_invalidas +
          st.linhas_ignoradas ≤
        st.datas_invalidas +
          (rows.foldl (processRow (buildMapping df.columns) codc dtc hoje) st).linhas_ignoradas) ∧
      st.datas_invalidas ≤
        (rows.foldl (processRow (buildMapping df.columns) codc dtc hoje) st).datas_invalidas := by
    intro rows
    induction rows with
    | nil => intro st; simp
    | cons a t ih =>
      intro st
      have h1 := processRow_accounting (buildMapping df.columns) codc dtc hoje st a
      have h2 := ih (processRow (buildMapping df.columns) codc dtc hoje st a)
      simp only [List.foldl_cons, List.length_cons]
      omega
  have k := key df.rows initState
  rw [hstat]
  simp [initState] at k ⊢
  omega

/-- Witness for C10 at the concrete dataframe `wdf`. -/
theorem c10_witness :
    wres.estatisticas.total_linhas =
      wres.estatisticas.linhas_processadas + wres.estatisticas.linhas_ignoradas :=
  (c10_statistics wdf whoje wres (by rfl)).1

/-- The stored tier's rank equals the rank the sort key recomputes from the
999-replaced minimum. -/
theorem tierRankOf_critOf (mo : Option ℤ) : tierRankOf (critOf mo) = tierRank (mo.getD 999) := by
  cases mo with
  | none => decide
  | some d =>
    simp only [critOf, tierRankOf, tierRank, Option.getD]
    split_ifs <;> simp_all

/-- Claim C7: the product list is sorted by the tuple (tier rank with
expired 0, high 1, medium 2, low 3; then ascending minimum days-remaining):
each adjacent pair is ordered by rank, and by minimum within equal rank. -/
theorem c7_sorted (df : DF) (hoje : ℤ) (res : AnalysisResult)
    (h : process_data df hoje = .ok res) :
    List.Chain' (fun p q =>
      tierRankOf p.criticidade ≤ tierRankOf q.criticidade ∧
      (tierRankOf p.criticidade = tierRankOf q.criticidade →
        p.menor_dias_restantes ≤ q.menor_dias_restantes)) res.produtos_criticos := by
  obtain ⟨dtc, codc, -, -, hprod, -, -, -, -⟩ := process_data_ok_inv h
  have hs : List.Sorted prodLe
      (List.insertionSort prodLe
        ((df.rows.foldl (processRow (buildMapping df.columns) codc dtc hoje) initState).produtos.map
          (fun e => finalizeProduto e.2))) :=
    List.sorted_insertionSort prodLe _
  rw [hprod]
  refine List.Pairwise.chain' ?_
  refine List.Pairwise.imp_of_mem ?_ hs
  intro a b ha hb hab
  rw [List.mem_insertionSort] at ha hb
  obtain ⟨ea, -, rfl⟩ := List.mem_map.mp ha
  obtain ⟨eb, -, rfl⟩ := List.mem_map.mp hb
  have hra : tierRankOf (finalizeProduto ea.2).criticidade =
      tierRank (finalizeProduto ea.2).menor_dias_restantes := by
    simp [finalizeProduto, tierRankOf_critOf]
  have hrb : tierRankOf (finalizeProduto eb.2).criticidade =
      tierRank (finalizeProduto eb.2).menor_dias_restantes := by
    simp [finalizeProduto, tierRankOf_critOf]
  rw [hra, hrb]
  rcases hab with hlt | ⟨heq, hle⟩
  · exact ⟨le_of_lt hlt, fun he => absurd he (ne_of_lt hlt)⟩
  · exact ⟨le_of_eq heq, fun _ => hle⟩

/-- Witness for C7 at the concrete dataframe `wdf`. -/
theorem c7_witness :
    List.Chain' (fun p q =>
      tierRankOf p.criticidade ≤ tierRankOf q.criticidade ∧
      (tierRankOf p.criticidade = tierRankOf q.criticidade →
        p.menor_dias_restantes ≤ q.menor_dias_restantes)) wres.produtos_criticos :=
  c7_sorted wdf whoje wres (by rfl)

/-- The control message differs from each alert message (the first
characters differ). -/
theorem controle_ne_alerts (n : ℕ) :
    msgControle ≠ msgVencidos n ∧ msgControle ≠ msgCriticos n ∧
    msgControle ≠ msgMedios n ∧ msgControle ≠ msgGrandes n := by
  refine ⟨?_, ?_, ?_, ?_⟩ <;>
    · intro h
      have hh := congrArg (fun s => s.data.head?) h
      revert hh
      simp [msgVencidos, msgCriticos, msgMedios, msgGrandes, msgControle, String.data_append]

/-- Claim C8: the recommendation list contains the control message iff none
of the four alert rules fired (no product with negative minimum, no
high-tier, no medium-tier, no over-100-quantity product outside the low
tier); and an input with zero data rows (with resolvable mandatory columns)
yields total 0 products and exactly the control recommendation. -/
theorem c8_recommendations (produtos : List Produto) (df : DF) (hoje : ℤ) :
    (msgControle ∈ gerarRecomendacoes produtos ↔
      ((∀ p ∈ produtos, ¬ p.menor_dias_restantes < 0) ∧
       (∀ p ∈ produtos, p.criticidade ≠ "alta") ∧
       (∀ p ∈ produtos, p.criticidade ≠ "média") ∧
       (∀ p ∈ produtos, p.quantidade_total.gtQ 100 = true → p.criticidade = "baixa"))) ∧
    (df.rows = [] → (buildMapping df.columns).dt_val.isSome →
      (buildMapping df.columns).cod_prod.isSome →
      ∃ res, process_data df hoje = .ok res ∧ res.resumo.total_produtos = 0 ∧
        res.recomendacoes = [msgControle]) := by
  constructor
  · have key : msgControle ∈ gerarRecomendacoes produtos ↔
        ((produtos.filter (fun p => p.menor_dias_restantes < 0)) = [] ∧
         (produtos.filter (fun p => p.criticidade == "alta")) = [] ∧
         (produtos.filter (fun p => p.criticidade == "média")) = [] ∧
         (produtos.filter (fun p => p.quantidade_total.gtQ 100 && p.criticidade != "baixa")) = []) := by
      by_cases h1 : (produtos.filter (fun p => p.menor_dias_restantes < 0)) = [] <;>
      by_cases h2 : (produtos.filter (fun p => p.criticidade == "alta")) = [] <;>
      by_cases h3 : (produtos.filter (fun p => p.criticidade == "média")) = [] <;>
      by_cases h4 : (produtos.filter (fun p => p.quantidade_total.gtQ 100 && p.criticidade != "baixa")) = [] <;>
        simp [gerarRecomendacoes, h1, h2, h3, h4, List.length_eq_zero, controle_ne_alerts]
    rw [key]
    simp only [List.filter_eq_nil_iff]
    constructor
    · rintro ⟨a1, a2, a3, a4⟩
      refine ⟨fun p hp => by simpa using a1 p hp, fun p hp => by simpa using a2 p hp,
        fun p hp => by simpa using a3 p hp, fun p hp hq => ?_⟩
      have := a4 p hp
      simp [hq] at this
      simpa using this
    · rintro ⟨a1, a2, a3, a4⟩
      refine ⟨fun p hp => by simpa using a1 p hp, fun p hp => by simpa using a2 p hp,
        fun p hp => by simpa using a3 p hp, fun p hp => ?_⟩
      have := a4 p hp
      simp
      intro hq
      exact this hq
  · intro hrows hdt hcod
    obtain ⟨dtc, hdtc⟩ := Option.isSome_iff_exists.mp hdt
    obtain ⟨codc, hcodc⟩ := Option.isSome_iff_exists.mp hcod
    have hpd : process_data df hoje = .ok
        { resumo := { total_produtos := 0, total_itens := .fin 0, produtos_vencendo_30_dias := 0,
                      produtos_vencendo_60_dias := 0, produtos_vencidos := 0 },
          produtos_criticos := [],
          filtros := { fornecedores := [], cods_fornecedor := [], pesos_liquidos := [],
                       cods_produto := [] },
          recomendacoes := [msgControle],
          estatisticas := { total_linhas := 0, linhas_processadas := 0, linhas_ignoradas := 0,
                            datas_invalidas := 0 },
          colunas_mapeadas := buildMapping df.columns } := by
      unfold process_data
      simp only [hdtc, hcodc, hrows]
      rfl
    exact ⟨_, hpd, rfl, rfl⟩

/-- Witness for C8: the empty input yields zero products and exactly the
control recommendation. -/
theorem c8_witness :
    process_data c8df whoje = .ok (resultOf c8df whoje) ∧
    (resultOf c8df whoje).resumo.total_produtos = 0 ∧
    (resultOf c8df whoje).recomendacoes = [msgControle] := by
  obtain ⟨res, h1, h2, h3⟩ := (c8_recommendations [] c8df whoje).2 rfl (by decide) (by decide)
  have he : resultOf c8df whoje = res := by
    unfold resultOf
    rw [h1]
    rfl
  rw [he]
  exact ⟨h1, h2, h3⟩

/-- Membership in a deduplicated `filterMap` collection comes from a source
element. -/
theorem mem_dedup_filterMap {α β : Type} [DecidableEq β] (g : α → Option β) (l : List α)
    (x : β) (hx : x ∈ (l.filterMap g).dedup) : ∃ p ∈ l, g p = some x := by
  rw [List.mem_dedup] at hx
  exact List.mem_filterMap.mp hx

/-- Applying `filterMap id` to a list of distinct cells keeps it distinct. -/
theorem nodup_filterMap_id {l : List Cell} (hl : l.Nodup) : (l.filterMap id).Nodup := by
  refine List.Nodup.filterMap ?_ hl
  intro a b c ha hb
  simp only [id, Option.mem_def] at ha hb
  rw [ha, hb]

/-- Counterexample to claim C9 as stated: this analysis succeeds and its
supplier-name filter list is `[none]` — the raw missing value, not a
string. The source adds `produto['fornecedor']` to the supplier set
without `str(...)`, so not every extracted value is coerced to a string
before deduplication and sorting. -/
theorem c9_counterexample :
    process_data c9df whoje = .ok (resultOf c9df whoje) ∧
    (resultOf c9df whoje).filtros.fornecedores = [none] :=
  ⟨by rfl, by rfl⟩

/-- Claim C9 amended: the supplier-code, net-weight and product-code
filters are lexicographically sorted lists of distinct strings (supplier
codes provably the `str(...)`-coerced truthy values); the supplier-name
filter is a distinct list of the raw truthy supplier values — not coerced
to strings — whose entries are nevertheless pairwise ordered by their
string rendering in every successful analysis. -/
theorem c9_filters (df : DF) (hoje : ℤ) (res : AnalysisResult)
    (h : process_data df hoje = .ok res) :
    (List.Sorted (· ≤ ·) res.filtros.cods_fornecedor ∧ res.filtros.cods_fornecedor.Nodup ∧
      ∀ x ∈ res.filtros.cods_fornecedor, ∃ p ∈ res.produtos_criticos,
        cellTruthy p.cod_fornec = true ∧ x = cellStr p.cod_fornec) ∧
    (List.Sorted (· ≤ ·) res.filtros.pesos_liquidos ∧ res.filtros.pesos_liquidos.Nodup) ∧
    (List.Sorted (· ≤ ·) res.filtros.cods_produto ∧ res.filtros.cods_produto.Nodup) ∧
    (List.Pairwise (fun a b : Cell => cellStr a ≤ cellStr b) res.filtros.fornecedores ∧
      res.filtros.fornecedores.Nodup ∧
      ∀ x ∈ res.filtros.fornecedores, ∃ p ∈ res.produtos_criticos,
        cellTruthy p.fornecedor = true ∧ x = p.fornecedor) := by
  obtain ⟨dtc, codc, -, -, -, -, -, hf, -⟩ := process_data_ok_inv h
  unfold extrairFiltros at hf
  simp only [bind, Except.bind, pure, Except.pure] at hf
  cases hps : pySortedCells
      ((res.produtos_criticos.filterMap
        (fun p => if cellTruthy p.fornecedor then some p.fornecedor else none)).dedup) with
  | error e => rw [hps] at hf; exact absurd hf (by simp)
  | ok fs =>
    rw [hps] at hf
    have hfields := Except.ok.inj hf
    have hcf : res.filtros.cods_fornecedor =
        List.insertionSort (· ≤ ·)
          ((res.produtos_criticos.filterMap
            (fun p => if cellTruthy p.cod_fornec then some (cellStr p.cod_fornec) else none)).dedup) := by
      rw [← hfields]
    have hpl : res.filtros.pesos_liquidos =
        List.insertionSort (· ≤ ·)
          ((res.produtos_criticos.filterMap
            (fun p => if cellTruthy p.peso_liqun then some (cellStr p.peso_liqun) else none)).dedup) := by
      rw [← hfields]
    have hcp : res.filtros.cods_produto =
        List.insertionSort (· ≤ ·)
          ((res.produtos_criticos.filterMap
            (fun p => if p.cod_prod ≠ "" then some p.cod_prod else none)).dedup) := by
      rw [← hfields]
    have hfo : res.filtros.fornecedores = fs := by rw [← hfields]
    refine ⟨⟨?_, ?_, ?_⟩, ⟨?_, ?_⟩, ⟨?_, ?_⟩, ?_, ?_, ?_⟩
    · rw [hcf]; exact List.sorted_insertionSort _ _
    · rw [hcf]
      exact ((List.perm_insertionSort _ _).nodup_iff).mpr (List.nodup_dedup _)
    · intro x hx
      rw [hcf, List.mem_insertionSort] at hx
      obtain ⟨p, hp, hg⟩ := mem_dedup_filterMap _ _ _ hx
      by_cases ht : cellTruthy p.cod_fornec = true
      · rw [if_pos ht] at hg
        exact ⟨p, hp, ht, (Option.some.inj hg).symm⟩
      · rw [if_neg ht] at hg
        exact absurd hg (by simp)
    · rw [hpl]; exact List.sorted_insertionSort _ _
    · rw [hpl]
      exact ((List.perm_insertionSort _ _).nodup_iff).mpr (List.nodup_dedup _)
    · rw [hcp]; exact List.sorted_insertionSort _ _
    · rw [hcp]
      exact ((List.perm_insertionSort _ _).nodup_iff).mpr (List.nodup_dedup _)
    · rw [hfo]
      unfold pySortedCells at hps
      split at hps
      · have hfs := Except.ok.inj hps
        rw [← hfs, List.pairwise_map]
        refine ((List.sorted_insertionSort (· ≤ ·) _).imp_of_mem ?_)
        intro a b ha hb hab
        rw [List.mem_insertionSort, List.mem_filterMap] at ha hb
        obtain ⟨ca, -, hca⟩ := ha
        obtain ⟨cb, -, hcb⟩ := hb
        simp only [id, Option.mem_def] at hca hcb
        subst hca
        subst hcb
        simpa [cellStr] using hab
      · split at hps
        · have hfs := Except.ok.inj hps
          rw [← hfs]
          rename_i hlen
          rcases hll : ((res.produtos_criticos.filterMap
              (fun p => if cellTruthy p.fornecedor then some p.fornecedor else none)).dedup) with
            - | ⟨a, - | ⟨b, t⟩⟩
          · rw [hll]
            exact List.Pairwise.nil
          · rw [hll]
            exact List.pairwise_singleton _ a
          · rw [hll] at hlen
            simp at hlen
        · exact absurd hps (by simp)
    · rw [hfo]
      unfold pySortedCells at hps
      split at hps
      · have hfs := Except.ok.inj hps
        rw [← hfs]
        refine List.Nodup.map (Option.some_injective _) ?_
        exact ((List.perm_insertionSort _ _).nodup_iff).mpr (nodup_filterMap_id (List.nodup_dedup _))
      · split at hps
        · have hfs := Except.ok.inj hps
          rw [← hfs]
          exact List.nodup_dedup _
        · exact absurd hps (by simp)
    · intro x hx
      rw [hfo] at hx
      unfold pySortedCells at hps
      split at hps
      · have hfs := Except.ok.inj hps
        rw [← hfs] at hx
        obtain ⟨s, hs, rfl⟩ := List.mem_map.mp hx
        rw [List.mem_insertionSort, List.mem_filterMap] at hs
        obtain ⟨c, hc, hid⟩ := hs
        simp only [id, Option.mem_def] at hid
        subst hid
        obtain ⟨p, hp, hg⟩ := mem_dedup_filterMap _ _ _ hc
        by_cases ht : cellTruthy p.fornecedor = true
        · rw [if_pos ht] at hg
          exact ⟨p, hp, ht, (Option.some.inj hg).symm⟩
        · rw [if_neg ht] at hg
          exact absurd hg (by simp)
      · split at hps
        · have hfs := Except.ok.inj hps
          rw [← hfs] at hx
          obtain ⟨p, hp, hg⟩ := mem_dedup_filterMap _ _ _ hx
          by_cases ht : cellTruthy p.fornecedor = true
          · rw [if_pos ht] at hg
            exact ⟨p, hp, ht, (Option.some.inj hg).symm⟩
          · rw [if_neg ht] at hg
            exact absurd hg (by simp)
        · exact absurd hps (by simp)

/-- Witness for C9 (amended) at the concrete dataframe `wdf`. -/
theorem c9_witness :
    List.Sorted (· ≤ ·) wres.filtros.cods_produto ∧ wres.filtros.cods_produto.Nodup :=
  (c9_filters wdf whoje wres (by rfl)).2.2.1

/-- The item literal stores the quantity, date and days-remaining it was
built with. -/
theorem mkItem_fields {r : Row} {m : ColMapping} {qt : PyFloat} {dtv : PyDateTime}
    {dias : ℤ} {item : Item} (h : mkItem r m qt dtv dias = some item) :
    item.quantidade = qt ∧ item.data_validade = dtv ∧ item.dias_restantes = dias := by
  unfold mkItem at h
  split at h
  · rw [← Option.some.inj h]
    exact ⟨rfl, rfl, rfl⟩
  · exact absurd h (by simp)

/-- The new-product literal starts empty: no items, zero total, infinite
minimum. -/
theorem mkProdutoAcc_fields {r : Row} {m : ColMapping} {cod : String} {qt : PyFloat}
    {p : ProdutoAcc} (h : mkProdutoAcc r m cod qt = some p) :
    p.itens_detalhados = [] ∧ p.quantidade_total = .fin 0 ∧
    p.menor_dias_restantes = none := by
  unfold mkProdutoAcc at h
  split at h
  · rw [← Option.some.inj h]
    exact ⟨rfl, rfl, rfl⟩
  · exact absurd h (by simp)

/-- The fully-processed branch of the row loop: with successful lookups, a
non-empty code and a parseable date, the row is processed — the item is
appended to its product and the processed counter incremented. -/
theorem processRow_success (m : ColMapping) (codc dtc : String) (hoje : ℤ)
    (st : LoopState) (r : Row) (cod : String) (qtCell dtCell : Cell) (dtv : PyDateTime)
    (prods1 : List (String × ProdutoAcc)) (item : Item)
    (hcod : getCell r codc = some (some cod)) (hne : ¬ pyStrip cod = "")
    (hqt : (match m.qt with | some c => getCell r c | none => some (some "0")) = some qtCell)
    (hdt : getCell r dtc = some dtCell) (hpd : parse_date dtCell = some dtv)
    (hprods : (if (st.produtos.find? (fun e => e.1 == cod)).isSome then some st.produtos
        else (mkProdutoAcc r m cod (qtOfCell qtCell)).map (fun p => st.produtos ++ [(cod, p)])) =
      some prods1)
    (hitem : mkItem r m (qtOfCell qtCell) dtv (dtv.ord - hoje) = some item) :
    processRow m codc dtc hoje st r =
      { st with
        produtos := prods1.map (fun e =>
          if e.1 == cod then
            (e.1, addRowToProduto e.2 item (qtOfCell qtCell) (dtv.ord - hoje)
              (ordToMonthYear dtv.ord))
          else e),
        linhas_processadas := st.linhas_processadas + 1 } := by
  unfold processRow
  rw [hcod, hqt, hdt]
  simp only [hpd, hprods, hitem, if_neg hne]

/-- Claim C6: a row with a non-empty product code and a parseable date gets
its quantity by replacing the decimal comma with a point and parsing as a
float, defaulting to 0 on failure, and is always processed into a line
item — never dropped because of a malformed quantity. -/
theorem c6_quantity (m : ColMapping) (codc dtc : String) (hoje : ℤ)
    (st : LoopState) (r : Row) (cod : String) (qtCell dtCell : Cell) (dtv : PyDateTime)
    (prods1 : List (String × ProdutoAcc)) (item : Item)
    (hcod : getCell r codc = some (some cod)) (hne : ¬ pyStrip cod = "")
    (hqt : (match m.qt with | some c => getCell r c | none => some (some "0")) = some qtCell)
    (hdt : getCell r dtc = some dtCell) (hpd : parse_date dtCell = some dtv)
    (hprods : (if (st.produtos.find? (fun e => e.1 == cod)).isSome then some st.produtos
        else (mkProdutoAcc r m cod (qtOfCell qtCell)).map (fun p => st.produtos ++ [(cod, p)])) =
      some prods1)
    (hitem : mkItem r m (qtOfCell qtCell) dtv (dtv.ord - hoje) = some item) :
    processRow m codc dtc hoje st r =
      { st with
        produtos := prods1.map (fun e =>
          if e.1 == cod then
            (e.1, addRowToProduto e.2 item (qtOfCell qtCell) (dtv.ord - hoje)
              (ordToMonthYear dtv.ord))
          else e),
        linhas_processadas := st.linhas_processadas + 1 } ∧
    (∀ s : String, qtCell = some s → s ≠ "" →
      item.quantidade =
        (match pyFloat (String.mk (s.data.map (fun ch => if ch = ',' then '.' else ch))) with
         | some v => v
         | none => .fin 0)) := by
  refine ⟨processRow_success m codc dtc hoje st r cod qtCell dtCell dtv prods1 item
    hcod hne hqt hdt hpd hprods hitem, ?_⟩
  intro s hs hsne
  rw [(mkItem_fields hitem).1]
  subst hs
  unfold qtOfCell
  rw [if_pos (by simpa [cellTruthy] using hsne)]
  rfl

/-- Witness for C6: the malformed-quantity row is processed and its line
item carries quantity 0. -/
theorem c6_witness :
    (processRow c6m "CODPROD" "DTVAL" whoje initState c6r).linhas_processadas = 1 ∧
    c6item.quantidade = .fin 0 := by
  have h := c6_quantity c6m "CODPROD" "DTVAL" whoje initState c6r "A" (some "abc")
    (some "15/06/2025") (mkDate 2025 6 15) c6prods c6item (by rfl) (by decide) (by rfl)
    (by rfl) (by rfl) (by rfl) (by rfl)
  constructor
  · rw [h.1]
    rfl
  · have h2 := h.2 "abc" rfl (by decide)
    rw [h2]
    rfl

/-- Adding in a different order commutes (needed to sum over the sorted
item list). -/
theorem PyFloat.add_right_comm (a x y : PyFloat) : (a.add x).add y = (a.add y).add x := by
  cases a <;> cases x <;> cases y <;> simp [PyFloat.add] <;> ring

/-- Adding to the zero float is the identity. -/
theorem PyFloat.zero_add' (x : PyFloat) : (PyFloat.fin 0).add x = x := by
  cases x <;> simp [PyFloat.add]

/-- Sum over an appended item. -/
theorem sumQt_append (l : List Item) (i : Item) :
    sumQt (l ++ [i]) = (sumQt l).add i.quantidade := by
  simp [sumQt, List.foldl_append]

/-- Running minimum over an appended item. -/
theorem minDias_append (l : List Item) (i : Item) :
    minDias (l ++ [i]) =
      (match minDias l with
       | none => some i.dias_restantes
       | some m0 =>
         if i.dias_restantes < m0 then some i.dias_restantes else some m0) := by
  simp [minDias, List.foldl_append]

/-- The sum of item quantities is invariant under permutation. -/
theorem sumQt_perm {l l' : List Item} (hp : l.Perm l') : sumQt l = sumQt l' := by
  unfold sumQt
  haveI : RightCommutative (fun (a : PyFloat) (i : Item) => a.add i.quantidade) :=
    ⟨fun a x y => PyFloat.add_right_comm a x.quantidade y.quantidade⟩
  exact hp.foldl_eq _

/-- A fresh accumulator satisfies the invariant, and so does the product
map after the creation step. -/
theorem prods1_inv {st : LoopState} {r : Row} {m : ColMapping} {cod : String}
    {qt : PyFloat} {prods1 : List (String × ProdutoAcc)}
    (hst : ∀ e ∈ st.produtos, AccInv e.2)
    (h : (if (st.produtos.find? (fun e => e.1 == cod)).isSome then some st.produtos
          else (mkProdutoAcc r m cod qt).map (fun p => st.produtos ++ [(cod, p)])) =
      some prods1) :
    ∀ e ∈ prods1, AccInv e.2 := by
  split at h
  · rw [← Option.some.inj h]
    exact hst
  · rcases hmk : mkProdutoAcc r m cod qt with - | p
    · rw [hmk] at h
      exact absurd h (by simp)
    · rw [hmk] at h
      simp only [Option.map_some'] at h
      rw [← Option.some.inj h]
      intro e he
      rcases List.mem_append.mp he with h1 | h2
      · exact hst e h1
      · obtain ⟨hq1, hq2, hq3⟩ := mkProdutoAcc_fields hmk
        have he2 : e = (cod, p) := by simpa using h2
        rw [he2]
        exact ⟨by rw [hq2, hq1]; rfl, by rw [hq3, hq1]; rfl⟩

/-- The per-row mutation preserves the aggregation invariant. -/
theorem addRow_inv {p : ProdutoAcc} {item : Item} {qt : PyFloat} {dias : ℤ}
    {my : ℤ × ℤ} (hp : AccInv p) (hqi : item.quantidade = qt)
    (hdi : item.dias_restantes = dias) :
    AccInv (addRowToProduto p item qt dias my) := by
  obtain ⟨h1, h2⟩ := hp
  constructor
  · show p.quantidade_total.add qt = sumQt (p.itens_detalhados ++ [item])
    rw [sumQt_append, h1, hqi]
  · show (match p.menor_dias_restantes with
      | none => some dias
      | some m0 => if dias < m0 then some dias else some m0) =
      minDias (p.itens_detalhados ++ [item])
    rw [minDias_append, h2, hdi]

/-- The item-append tail of the loop body preserves the invariant. -/
theorem tail_inv {st : LoopState} {r : Row} {m : ColMapping} {cod : String}
    {qt : PyFloat} {dtv : PyDateTime} {dias : ℤ} {my : ℤ × ℤ}
    {prods1 : List (String × ProdutoAcc)} (hp : ∀ e ∈ prods1, AccInv e.2) :
    ∀ e ∈ (match mkItem r m qt dtv dias with
      | none =>
        ({ produtos := prods1, linhas_processadas := st.linhas_processadas,
           linhas_ignoradas := st.linhas_ignoradas + 1,
           datas_invalidas := st.datas_invalidas } : LoopState)
      | some item =>
        { produtos := prods1.map (fun e : String × ProdutoAcc =>
            if (e.1 == cod) = true then (e.1, addRowToProduto e.2 item qt dias my) else e),
          linhas_processadas := st.linhas_processadas + 1,
          linhas_ignoradas := st.linhas_ignoradas,
          datas_invalidas := st.datas_invalidas }).produtos, AccInv e.2 := by
  cases hmi : mkItem r m qt dtv dias with
  | none => exact hp
  | some item =>
    intro e he
    simp only [List.mem_map] at he
    obtain ⟨e0, he0, rfl⟩ := he
    split
    · exact addRow_inv (hp e0 he0) (mkItem_fields hmi).1 (mkItem_fields hmi).2.2
    · exact hp e0 he0

/-- The create-then-append tail of the loop body preserves the invariant. -/
theorem create_tail_inv {st : LoopState} {r : Row} {m : ColMapping} {cod : String}
    {qt : PyFloat} {dtv : PyDateTime} {dias : ℤ} {my : ℤ × ℤ}
    (hst : ∀ e ∈ st.produtos, AccInv e.2) :
    ∀ e ∈ (match Option.map (fun p => st.produtos ++ [(cod, p)]) (mkProdutoAcc r m cod qt) with
      | none => ignoreRow st
      | some prods1 =>
        match mkItem r m qt dtv dias with
        | none =>
          ({ produtos := prods1, linhas_processadas := st.linhas_processadas,
             linhas_ignoradas := st.linhas_ignoradas + 1,
             datas_invalidas := st.datas_invalidas } : LoopState)
        | some item =>
          { produtos := prods1.map (fun e : String × ProdutoAcc =>
              if (e.1 == cod) = true then (e.1, addRowToProduto e.2 item qt dias my) else e),
            linhas_processadas := st.linhas_processadas + 1,
            linhas_ignoradas := st.linhas_ignoradas,
            datas_invalidas := st.datas_invalidas }).produtos, AccInv e.2 := by
  cases hmk : mkProdutoAcc r m cod qt with
  | none => exact hst
  | some p =>
    refine tail_inv ?_
    intro e he
    rcases List.mem_append.mp he with h1 | h2
    · exact hst e h1
    · obtain ⟨hq1, hq2, hq3⟩ := mkProdutoAcc_fields hmk
      have he2 : e = (cod, p) := by simpa using h2
      rw [he2]
      exact ⟨by rw [hq2, hq1]; rfl, by rw [hq3, hq1]; rfl⟩

/-- One loop iteration preserves the aggregation invariant of every stored
accumulator. -/
theorem processRow_inv (m : ColMapping) (codc dtc : String) (hoje : ℤ)
    (st : LoopState) (r : Row) (hst : ∀ e ∈ st.produtos, AccInv e.2) :
    ∀ e ∈ (processRow m codc dtc hoje st r).produtos, AccInv e.2 := by
  unfold processRow
  repeat' split
  all_goals try exact hst
  · rename_i prods1 heq
    exact tail_inv ((Option.some.inj heq) ▸ hst)
  · exact create_tail_inv hst

/-- The whole loop preserves the aggregation invariant. -/
theorem foldl_inv (m : ColMapping) (codc dtc : String) (hoje : ℤ)
    (rows : List Row) (st : LoopState) (hst : ∀ e ∈ st.produtos, AccInv e.2) :
    ∀ e ∈ (rows.foldl (processRow m codc dtc hoje) st).produtos, AccInv e.2 := by
  induction rows generalizing st with
  | nil => exact hst
  | cons a t ih => exact ih _ (processRow_inv m codc dtc hoje st a hst)

/-- The running minimum with a seeded accumulator produces the least value
seen. -/
theorem minDias_go (l : List Item) (a : ℤ) :
    ∃ v, l.foldl (fun acc i =>
        match acc with
        | none => some i.dias_restantes
        | some m0 =>
          if i.dias_restantes < m0 then some i.dias_restantes else some m0) (some a) =
      some v ∧ v ≤ a ∧ (v = a ∨ ∃ i ∈ l, i.dias_restantes = v) ∧
      ∀ i ∈ l, v ≤ i.dias_restantes := by
  induction l generalizing a with
  | nil => exact ⟨a, rfl, le_refl a, Or.inl rfl, by simp⟩
  | cons i t ih =>
    by_cases hlt : i.dias_restantes < a
    · obtain ⟨v, hv, hva, hsrc, hall⟩ := ih i.dias_restantes
      refine ⟨v, by simpa [hlt] using hv, by omega, ?_, ?_⟩
      · rcases hsrc with rfl | ⟨j, hj, hje⟩
        · exact Or.inr ⟨i, by simp, rfl⟩
        · exact Or.inr ⟨j, by simp [hj], hje⟩
      · intro j hj
        rcases List.mem_cons.mp hj with rfl | hj2
        · exact hva
        · exact hall j hj2
    · obtain ⟨v, hv, hva, hsrc, hall⟩ := ih a
      refine ⟨v, by simpa [hlt] using hv, hva, ?_, ?_⟩
      · rcases hsrc with rfl | ⟨j, hj, hje⟩
        · exact Or.inl rfl
        · exact Or.inr ⟨j, by simp [hj], hje⟩
      · intro j hj
        rcases List.mem_cons.mp hj with rfl | hj2
        · omega
        · exact hall j hj2

/-- Specification of the running minimum: `none` exactly on the empty list,
otherwise the minimum of the days-remaining values. -/
theorem minDias_spec (l : List Item) :
    (l = [] → minDias l = none) ∧
    (l ≠ [] → ∃ v, minDias l = some v ∧ (∃ i ∈ l, i.dias_restantes = v) ∧
      ∀ i ∈ l, v ≤ i.dias_restantes) := by
  constructor
  · rintro rfl
    rfl
  · intro hne
    cases l with
    | nil => exact absurd rfl hne
    | cons i t =>
      obtain ⟨v, hv, hva, hsrc, hall⟩ := minDias_go t i.dias_restantes
      refine ⟨v, by simpa [minDias] using hv, ?_, ?_⟩
      · rcases hsrc with rfl | ⟨j, hj, hje⟩
        · exact ⟨i, by simp, rfl⟩
        · exact ⟨j, by simp [hj], hje⟩
      · intro j hj
        rcases List.mem_cons.mp hj with rfl | hj2
        · exact hva
        · exact hall j hj2

/-- Claim C4: every returned product's total quantity is the sum of its
line items' quantities and its minimum days-remaining is the minimum over
its line items (999 only with zero line items); and a two-row table with
one product code and two parseable dates yields one product with two line
items whose total is the sum of both quantities. -/
theorem c4_aggregation (df : DF) (hoje : ℤ) (res : AnalysisResult)
    (h : process_data df hoje = .ok res) :
    (∀ p ∈ res.produtos_criticos,
      p.quantidade_total = sumQt p.itens_detalhados ∧
      (p.itens_detalhados = [] → p.menor_dias_restantes = 999) ∧
      (p.itens_detalhados ≠ [] →
        (∃ i ∈ p.itens_detalhados, i.dias_restantes = p.menor_dias_restantes) ∧
        ∀ i ∈ p.itens_detalhados, p.menor_dias_restantes ≤ i.dias_restantes)) ∧
    (∀ (hoje2 : ℤ) (code d1 d2 q1 q2 : String) (dtv1 dtv2 : PyDateTime)
        (res2 : AnalysisResult),
      pyStrip code ≠ "" →
      parse_date (some d1) = some dtv1 → parse_date (some d2) = some dtv2 →
      dtv1 ≠ dtv2 →
      process_data (twoRowDF code d1 d2 q1 q2) hoje2 = .ok res2 →
      res2.resumo.total_produtos = 1 ∧
      ∀ p ∈ res2.produtos_criticos, p.itens_detalhados.length = 2 ∧
        p.quantidade_total = (qtOfCell (some q1)).add (qtOfCell (some q2))) := by
  constructor
  · intro p hp
    obtain ⟨dtc, codc, -, -, hprodeq, -, -, -, -⟩ := process_data_ok_inv h
    rw [hprodeq, List.mem_insertionSort] at hp
    obtain ⟨e, he, rfl⟩ := List.mem_map.mp hp
    have hinv : AccInv e.2 :=
      foldl_inv (buildMapping df.columns) codc dtc hoje df.rows initState
        (fun x hx => absurd hx (List.not_mem_nil x)) e he
    obtain ⟨ht, hm⟩ := hinv
    simp only [finalizeProduto]
    refine ⟨?_, ?_, ?_⟩
    · rw [ht]
      exact sumQt_perm (List.perm_insertionSort itemLe e.2.itens_detalhados).symm
    · intro hempty
      have hlen := (List.perm_insertionSort itemLe e.2.itens_detalhados).length_eq
      rw [hempty] at hlen
      have hnil : e.2.itens_detalhados = [] :=
        List.eq_nil_of_length_eq_zero hlen.symm
      rw [hm, hnil]
      rfl
    · intro hne
      have hne2 : e.2.itens_detalhados ≠ [] := by
        intro hnil
        exact hne (by rw [hnil]; rfl)
      obtain ⟨v, hv, ⟨i, hi, hie⟩, hall⟩ := (minDias_spec e.2.itens_detalhados).2 hne2
      have hmv : e.2.menor_dias_restantes.getD 999 = v := by rw [hm, hv]; rfl
      constructor
      · exact ⟨i, (List.mem_insertionSort itemLe).mpr hi, by rw [hie, hmv]⟩
      · intro j hj
        rw [hmv]
        exact hall j ((List.mem_insertionSort itemLe).mp hj)
  · intro hoje2 code d1 d2 q1 q2 dtv1 dtv2 res2 hne hpd1 hpd2 hdne h2
    obtain ⟨dtc, codc, hdtc, hcodc, hprodeq, hreseq, -, -, -⟩ := process_data_ok_inv h2
    have hdtc2 : dtc = "DTVAL" :=
      (Option.some.inj (hdtc.symm.trans (show (buildMapping
        (twoRowDF code d1 d2 q1 q2).columns).dt_val = some "DTVAL" from rfl)))
    have hcodc2 : codc = "CODPROD" :=
      (Option.some.inj (hcodc.symm.trans (show (buildMapping
        (twoRowDF code d1 d2 q1 q2).columns).cod_prod = some "CODPROD" from rfl)))
    subst hdtc2
    subst hcodc2
    set m0 := buildMapping (twoRowDF code d1 d2 q1 q2).columns with hm0
    set row1 : Row := [("CODPROD", some code), ("DTVAL", some d1), ("QT", some q1)] with hr1
    set row2 : Row := [("CODPROD", some code), ("DTVAL", some d2), ("QT", some q2)] with hr2
    set acc1 := addRowToProduto (twoRowAcc code q1) (twoRowItem q1 dtv1 hoje2)
      (qtOfCell (some q1)) (dtv1.ord - hoje2) (ordToMonthYear dtv1.ord) with hacc1
    set acc2 := addRowToProduto acc1 (twoRowItem q2 dtv2 hoje2)
      (qtOfCell (some q2)) (dtv2.ord - hoje2) (ordToMonthYear dtv2.ord) with hacc2
    have st1eq := processRow_success m0 "CODPROD" "DTVAL" hoje2 initState row1 code
      (some q1) (some d1) dtv1 [(code, twoRowAcc code q1)] (twoRowItem q1 dtv1 hoje2)
      rfl hne rfl rfl hpd1 rfl rfl
    have hst1 : processRow m0 "CODPROD" "DTVAL" hoje2 initState row1 =
        { produtos := [(code, acc1)], linhas_processadas := 1, linhas_ignoradas := 0,
          datas_invalidas := 0 } := by
      rw [st1eq, hacc1]
      simp [initState]
    have st2eq := processRow_success m0 "CODPROD" "DTVAL" hoje2
      ({ produtos := [(code, acc1)], linhas_processadas := 1, linhas_ignoradas := 0,
         datas_invalidas := 0 } : LoopState) row2 code
      (some q2) (some d2) dtv2 [(code, acc1)] (twoRowItem q2 dtv2 hoje2)
      rfl hne rfl rfl hpd2 (by simp) rfl
    have hst2 : processRow m0 "CODPROD" "DTVAL" hoje2
        ({ produtos := [(code, acc1)], linhas_processadas := 1, linhas_ignoradas := 0,
           datas_invalidas := 0 } : LoopState) row2 =
        { produtos := [(code, acc2)], linhas_processadas := 2, linhas_ignoradas := 0,
          datas_invalidas := 0 } := by
      rw [st2eq, hacc2]
      simp
    have hfold : (twoRowDF code d1 d2 q1 q2).rows.foldl
        (processRow m0 "CODPROD" "DTVAL" hoje2) initState =
        { produtos := [(code, acc2)], linhas_processadas := 2, linhas_ignoradas := 0,
          datas_invalidas := 0 } := by
      show processRow m0 "CODPROD" "DTVAL" hoje2
        (processRow m0 "CODPROD" "DTVAL" hoje2 initState row1) row2 = _
      rw [hst1, hst2]
    rw [hfold] at hprodeq hreseq
    have hpc : res2.produtos_criticos = [finalizeProduto acc2] := by
      rw [hprodeq]
      rfl
    refine ⟨by rw [hreseq]; rfl, ?_⟩
    intro p hp
    rw [hpc] at hp
    rw [List.mem_singleton.mp hp]
    constructor
    · show (List.insertionSort itemLe acc2.itens_detalhados).length = 2
      rw [(List.perm_insertionSort itemLe acc2.itens_detalhados).length_eq]
      rfl
    · show acc2.quantidade_total = (qtOfCell (some q1)).add (qtOfCell (some q2))
      show ((PyFloat.fin 0).add (qtOfCell (some q1))).add (qtOfCell (some q2)) = _
      rw [PyFloat.zero_add']

/-- The default head of a non-empty list is a member. -/
theorem headD_mem {α : Type} (l : List α) (d : α) (h : l.isEmpty = false) :
    l.headD d ∈ l := by
  cases l with
  | nil => simp [List.isEmpty] at h
  | cons a t => simp [List.headD]

set_option maxRecDepth 8000 in
/-- Witness for C4 at the concrete two-row dataframe `c4df`. -/
theorem c4_witness :
    c4res.resumo.total_produtos = 1 ∧ c4p.itens_detalhados.length = 2 ∧
    c4p.quantidade_total = (qtOfCell (some "2,5")).add (qtOfCell (some "3")) := by
  have hb := (c4_aggregation wdf whoje wres (by rfl)).2 whoje "A" "15/06/2025" "20/07/2025"
    "2,5" "3" (mkDate 2025 6 15) (mkDate 2025 7 20) c4res (by decide) (by rfl) (by rfl)
    (by with_unfolding_all decide) (by rfl)
  have hmem : c4p ∈ c4res.produtos_criticos :=
    headD_mem c4res.produtos_criticos (finalizeProduto dummyAcc) (by rfl)
  exact ⟨hb.1, (hb.2 c4p hmem).1, (hb.2 c4p hmem).2⟩

/-- Counterexample to claim C5 as stated: the claim lists "malformed
quantity" among the row-level problems for which "each such row is
skipped, counted in the statistics" — but this analysis of a single row
with quantity `"abc"` processes the row (processed 1, ignored 0, one
product produced) instead of skipping it. -/
theorem c5_counterexample :
    process_data c5df whoje = .ok (resultOf c5df whoje) ∧
    (resultOf c5df whoje).estatisticas.linhas_processadas = 1 ∧
    (resultOf c5df whoje).estatisticas.linhas_ignoradas = 0 ∧
    (resultOf c5df whoje).resumo.total_produtos = 1 :=
  ⟨by rfl, by rfl, by rfl, by rfl⟩

/-- Claim C5 amended: `process_data` raises a configuration error iff the
expiration-date or product-code column is unresolved, and then the result
does not depend on the rows (the error precedes row processing); a row
with a failing code lookup, a missing (`NaN`) code or an all-blank code is
skipped and counted as ignored; a row with an unparseable date is skipped
and counted both invalid and ignored; every row ends either processed or
ignored, the loop never raising; the date parser returns a date or the
unparseable signal for every input. A malformed quantity, however, does
not skip its row: it is recovered as quantity 0 and the row is processed
(see the counterexample). -/
theorem c5_error_handling (df : DF) (hoje : ℤ) :
    ((process_data df hoje = .error .dtvalMissing ∨
        process_data df hoje = .error .codProdMissing) ↔
      ((buildMapping df.columns).dt_val = none ∨
        (buildMapping df.columns).cod_prod = none)) ∧
    (((buildMapping df.columns).dt_val = none ∨
        (buildMapping df.columns).cod_prod = none) →
      process_data df hoje = process_data { columns := df.columns, rows := [] } hoje) ∧
    (∀ (m : ColMapping) (codc dtc : String) (st : LoopState) (r : Row),
      (getCell r codc = none → processRow m codc dtc hoje st r = ignoreRow st) ∧
      (getCell r codc = some none → processRow m codc dtc hoje st r = ignoreRow st) ∧
      (∀ cod, getCell r codc = some (some cod) → pyStrip cod = "" →
        processRow m codc dtc hoje st r = ignoreRow st) ∧
      (∀ cod qtCell dtCell, getCell r codc = some (some cod) → pyStrip cod ≠ "" →
        (match m.qt with | some c => getCell r c | none => some (some "0")) = some qtCell →
        getCell r dtc = some dtCell → parse_date dtCell = none →
        processRow m codc dtc hoje st r =
          { st with datas_invalidas := st.datas_invalidas + 1,
                    linhas_ignoradas := st.linhas_ignoradas + 1 }) ∧
      ((processRow m codc dtc hoje st r).linhas_processadas = st.linhas_processadas + 1 ∧
          (processRow m codc dtc hoje st r).linhas_ignoradas = st.linhas_ignoradas ∨
        (processRow m codc dtc hoje st r).linhas_ignoradas = st.linhas_ignoradas + 1 ∧
          (processRow m codc dtc hoje st r).linhas_processadas = st.linhas_processadas)) ∧
    (∀ cell : Cell, parse_date cell = none ∨ ∃ dt, parse_date cell = some dt) := by
  refine ⟨⟨?_, ?_⟩, ?_, ?_, ?_⟩
  · intro h
    cases hdt : (buildMapping df.columns).dt_val with
    | none => exact Or.inl rfl
    | some dtc =>
      cases hcod : (buildMapping df.columns).cod_prod with
      | none => exact Or.inr rfl
      | some codc =>
        exfalso
        unfold process_data at h
        simp only [hdt, hcod] at h
        rcases h with h | h <;> (split at h <;> simp at h)
  · intro h
    unfold process_data
    cases hdt : (buildMapping df.columns).dt_val with
    | none =>
      simp only [hdt]
      exact Or.inl trivial
    | some dtc =>
      cases hcod : (buildMapping df.columns).cod_prod with
      | none =>
        simp only [hdt, hcod]
        exact Or.inr trivial
      | some codc =>
        exfalso
        rcases h with h | h
        · rw [hdt] at h
          exact Option.noConfusion h
        · rw [hcod] at h
          exact Option.noConfusion h
  · intro h
    unfold process_data
    cases hdt : (buildMapping df.columns).dt_val with
    | none => simp only [hdt]
    | some dtc =>
      cases hcod : (buildMapping df.columns).cod_prod with
      | none => simp only [hdt, hcod]
      | some codc =>
        exfalso
        rcases h with h | h
        · rw [hdt] at h
          exact Option.noConfusion h
        · rw [hcod] at h
          exact Option.noConfusion h
  · intro m codc dtc st r
    refine ⟨?_, ?_, ?_, ?_, ?_⟩
    · intro h
      unfold processRow
      rw [h]
    · intro h
      unfold processRow
      rw [h]
      repeat' split
      all_goals try rfl
      all_goals simp_all
    · intro cod hc hstrip
      unfold processRow
      rw [hc]
      repeat' split
      all_goals try rfl
      all_goals simp_all
    · intro cod qtCell dtCell hc hne hq hd hpd
      unfold processRow
      rw [hc, hq, hd]
      simp only [hpd, if_neg hne]
    · unfold processRow
      repeat' split
      all_goals try simp [ignoreRow]
      all_goals repeat' split
      all_goals simp
  · intro cell
    cases hp : parse_date cell with
    | none => exact Or.inl rfl
    | some dt => exact Or.inr ⟨dt, rfl⟩

/-- Witness for C5 (amended): a missing date column is a configuration
error, and a concrete unparseable date is counted invalid and ignored. -/
theorem c5_witness :
    (process_data c5badcols whoje = .error .dtvalMissing ∨
      process_data c5badcols whoje = .error .codProdMissing) ∧
    processRow (buildMapping ["CODPROD", "DTVAL"]) "CODPROD" "DTVAL" whoje initState
      [("CODPROD", some "A"), ("DTVAL", some "xx")] =
      { initState with datas_invalidas := 1, linhas_ignoradas := 1 } := by
  constructor
  · exact (c5_error_handling c5badcols whoje).1.mpr (Or.inl (by rfl))
  · exact ((c5_error_handling c5badcols whoje).2.2.1 (buildMapping ["CODPROD", "DTVAL"])
      "CODPROD" "DTVAL" initState [("CODPROD", some "A"), ("DTVAL", some "xx")]).2.2.2.1
      "A" (some "0") (some "xx") rfl (by decide) rfl rfl (by rfl)

end WMS
